import Mathlib

/-!
Verification of the booking lifecycle and capacity-accounting subsystem of the
Android-Tourism-App backend (`touristapp_backend`).

The definitions below are a shallow embedding of the Python services
`booking_service.py`, `rating_service.py` and `tour_package_service.py`:
the MongoDB collections become lists of documents, `find_one` becomes a
first-match lookup, `update_one` becomes a first-match in-place update, and
each service function becomes a function `DB → args → DB × Except Error Result`
(errors correspond to the `HTTPException` raises, which all happen before any
write on the failing paths, so the returned `DB` records exactly the writes
performed before the raise).

Machine-level caveats of the embedding, stated once here:
* Python floats (package `price`, `total_price`, `average_rating`) are modelled
  as rationals `ℚ`; none of the verified claims depends on binary rounding of
  floats, except `round(x, 1)` which is modelled as exact rational rounding to
  tenths with ties to even (Python's rounding mode).
* BSON `ObjectId` values carry a 24-character hex string; MongoDB equality is
  type-sensitive, so an `ObjectId` never equals a plain string. `BsonId` keeps
  that distinction.
* Document fields irrelevant to every claim (travel dates, contact fields,
  review text, timestamps, descriptive package fields) are omitted.
-/

set_option allowUnsafeReducibility true
attribute [local semireducible] Rat.mul Rat.add Rat.sub Rat.neg Rat.inv Rat.div
  Rat.floor Rat.blt Rat.normalize mkRat

namespace TouristApp

/-- A BSON identifier value as stored in a document field: either a real
`ObjectId` (carrying its 24-char hex form) or a plain string.  MongoDB's
equality is type-sensitive: `.oid s` never matches `.str s`. -/
inductive BsonId where
  | oid (hex : String)
  | str (s : String)
deriving DecidableEq, Repr

/-- The hex string underlying a `BsonId`; `update_booking_status` normalizes a
string-typed `tour_package_id` back to an `ObjectId` this way
(`ObjectId(package_identifier)` in the source). -/
def BsonId.hexOf : BsonId → String
  | .oid h => h
  | .str s => s

/-- `bson.ObjectId` accepts exactly 24 hexadecimal characters. -/
def isHexChar (c : Char) : Bool :=
  c.isDigit || ('a' ≤ c && c ≤ 'f') || ('A' ≤ c && c ≤ 'F')

/-- Validity check performed by `ObjectId(s)`; `InvalidId` is raised otherwise. -/
def isValidObjectId (s : String) : Bool :=
  s.length = 24 && s.data.all isHexChar

/-- `BookingStatus` enum from `app/models/booking.py`. -/
inductive BookingStatus where
  | pending
  | confirmed
  | cancelled
  | completed
deriving DecidableEq, Repr

/-- `PackageStatus` enum from `app/models/tour_package.py`. -/
inductive PackageStatus where
  | active
  | inactive
deriving DecidableEq, Repr

/-- A tour-package document (`tour_packages` collection).  `ratingCount` models
the `rating_count` field written by `rating_service.update_package_rating`;
it is absent (`none`) until that service writes it, and is distinct from the
model field `total_ratings`. -/
structure PackageDoc where
  pid : String
  price : ℚ
  maxParticipants : Int
  currentParticipants : Int
  status : PackageStatus
  averageRating : ℚ
  totalRatings : Int
  ratingCount : Option Nat
deriving DecidableEq, Repr

/-- A booking document (`bookings` collection).  `create_booking` stores
`tour_package_id` and `tourist_id` as `ObjectId`s. -/
structure BookingDoc where
  bid : Nat
  tourPackageId : BsonId
  touristId : BsonId
  numberOfPeople : Int
  totalPrice : ℚ
  status : BookingStatus
  bookingReference : String
deriving DecidableEq, Repr

/-- A rating document (`ratings` collection); `create_rating` stores
`tour_package_id` and `tourist_id` as the request's plain strings. -/
structure RatingDoc where
  tourPackageId : String
  touristId : String
  rating : Int
  bookingId : Option Nat
deriving DecidableEq, Repr

/-- The database state: the three collections touched by the subsystem, plus
the id generator for booking inserts (MongoDB generates `_id`s). -/
structure DB where
  packages : List PackageDoc
  bookings : List BookingDoc
  ratings : List RatingDoc
  nextBookingId : Nat
deriving DecidableEq, Repr

/-- `db.tour_packages.find_one({"_id": pid})`: first match in the collection. -/
def findPackage : List PackageDoc → String → Option PackageDoc
  | [], _ => none
  | p :: rest, pid => if p.pid = pid then some p else findPackage rest pid

/-- `db.tour_packages.update_one({"_id": pid}, ...)`: updates the first match,
no-op when the package is absent. -/
def updateFirstPackage : List PackageDoc → String → (PackageDoc → PackageDoc) → List PackageDoc
  | [], _, _ => []
  | p :: rest, pid, f =>
      if p.pid = pid then f p :: rest else p :: updateFirstPackage rest pid f

/-- `db.bookings.find_one({"_id": bid})`. -/
def findBooking : List BookingDoc → Nat → Option BookingDoc
  | [], _ => none
  | b :: rest, bid => if b.bid = bid then some b else findBooking rest bid

/-- `db.bookings.update_one({"_id": bid}, ...)`. -/
def updateFirstBooking : List BookingDoc → Nat → (BookingDoc → BookingDoc) → List BookingDoc
  | [], _, _ => []
  | b :: rest, bid, f =>
      if b.bid = bid then f b :: rest else b :: updateFirstBooking rest bid f

/-- Errors raised by `booking_service` (each an `HTTPException` in the source;
`insufficientCapacity` carries the available-slot count used in the message,
`invalidTransition` carries the current and requested states used in the
message `"Cannot transition from {current} to {new}"`). -/
inductive BookingError where
  | invalidId
  | notFound
  | packageInactive
  | insufficientCapacity (available : Int)
  | invalidTransition (fromStatus toStatus : BookingStatus)
  | notModified
deriving DecidableEq, Repr

/-- `BookingCreate` request model (claim-relevant fields; travel date and
contact fields omitted).  Note the model places no positivity constraint on
`number_of_people`. -/
structure BookingCreate where
  tourPackageId : String
  numberOfPeople : Int
deriving DecidableEq, Repr

/-- `string.ascii_uppercase + string.digits`. -/
def refAlphabet : String := "ABCDEFGHIJKLMNOPQRSTUVWXYZ0123456789"

/-- `''.join(random.choices(string.ascii_uppercase + string.digits, k=8))`,
with the randomness externalized: `picks` is the list of choices made by
`random.choices` (`k = 8` makes it an 8-element list at the call site). -/
def genBookingReference (picks : List (Fin 36)) : String :=
  ⟨picks.map (fun i => refAlphabet.data.getD i.val 'A')⟩

/-- `booking_service.create_booking`.  Sequence from the source: validate both
ids, fetch the package, require `active` status, require
`number_of_people ≤ max_participants - current_participants`, compute
`total_price = price * number_of_people`, generate the reference (with no
prior-existence check), insert the booking with status `pending`, then
`$inc` the package's `current_participants` by `number_of_people`. -/
def create_booking (db : DB) (booking : BookingCreate) (touristId : String)
    (picks : List (Fin 36)) : DB × Except BookingError BookingDoc :=
  if ¬ (isValidObjectId touristId && isValidObjectId booking.tourPackageId) then
    (db, .error .invalidId)
  else
    match findPackage db.packages booking.tourPackageId with
    | none => (db, .error .notFound)
    | some package =>
        if package.status ≠ .active then (db, .error .packageInactive)
        else
          let availableSlots := package.maxParticipants - package.currentParticipants
          if booking.numberOfPeople > availableSlots then
            (db, .error (.insufficientCapacity availableSlots))
          else
            let totalPrice := package.price * (booking.numberOfPeople : ℚ)
            let bookingReference := genBookingReference picks
            let doc : BookingDoc :=
              { bid := db.nextBookingId
                tourPackageId := .oid booking.tourPackageId
                touristId := .oid touristId
                numberOfPeople := booking.numberOfPeople
                totalPrice := totalPrice
                status := .pending
                bookingReference := bookingReference }
            let db1 : DB :=
              { db with
                  bookings := db.bookings ++ [doc]
                  nextBookingId := db.nextBookingId + 1 }
            let db2 : DB :=
              { db1 with
                  packages := updateFirstPackage db1.packages booking.tourPackageId
                    (fun p => { p with
                        currentParticipants := p.currentParticipants + booking.numberOfPeople }) }
            (db2, .ok doc)

/-- The `valid_transitions` table from `update_booking_status`. -/
def validTransitions : BookingStatus → List BookingStatus
  | .pending => [.confirmed, .cancelled]
  | .confirmed => [.completed, .cancelled]
  | .cancelled => []
  | .completed => []

/-- `booking_service.update_booking_status`.  Sequence from the source: fetch
the booking, consult `valid_transitions`, `$set` the new status (the
`modified_count == 0` re-raise cannot fire, since the table contains no
self-transition, so the `$set` always changes the document), and on a
transition to `cancelled` `$inc` the package's `current_participants` by
`-number_of_people` — with no floor at zero. -/
def update_booking_status (db : DB) (bookingId : Nat) (newStatus : BookingStatus) :
    DB × Except BookingError BookingDoc :=
  match findBooking db.bookings bookingId with
  | none => (db, .error .notFound)
  | some booking =>
      if newStatus ∉ validTransitions booking.status then
        (db, .error (.invalidTransition booking.status newStatus))
      else
        let db1 : DB :=
          { db with
              bookings := updateFirstBooking db.bookings bookingId
                (fun b => { b with status := newStatus }) }
        if booking.status = newStatus then (db1, .error .notModified)
        else
          let db2 : DB :=
            if newStatus = .cancelled then
              { db1 with
                  packages := updateFirstPackage db1.packages booking.tourPackageId.hexOf
                    (fun p => { p with
                        currentParticipants := p.currentParticipants - booking.numberOfPeople }) }
            else db1
          (db2, .ok { booking with status := newStatus })

/-- Errors raised by `tour_package_service.update_tour_package`: raising from an
invalid `ObjectId` string, empty update payload (400 "No data provided"), and
the shared 404 raised both when the package is absent and when the `$set`
changed nothing (`modified_count == 0`). -/
inductive PackageUpdateError where
  | invalidId
  | noData
  | notFoundOrUnchanged
deriving DecidableEq, Repr

/-- `TourPackageUpdate` request model (claim-relevant fields; every field is
optional and only the set ones are written — `exclude_unset=True`).  The
purely descriptive optional fields (name, description, itinerary, …) are
omitted: `$set`-ing them cannot affect any verified claim. -/
structure TourPackageUpdate where
  price : Option ℚ := none
  maxParticipants : Option Int := none
  currentParticipants : Option Int := none
  status : Option PackageStatus := none
  averageRating : Option ℚ := none
  totalRatings : Option Int := none
deriving DecidableEq, Repr

/-- Whether the update payload is empty (`len(update_data) == 0`). -/
def TourPackageUpdate.isEmpty (u : TourPackageUpdate) : Bool :=
  u.price.isNone && u.maxParticipants.isNone && u.currentParticipants.isNone &&
    u.status.isNone && u.averageRating.isNone && u.totalRatings.isNone

/-- The effect of `$set`-ting exactly the fields present in the payload. -/
def applyPackageUpdate (p : PackageDoc) (u : TourPackageUpdate) : PackageDoc :=
  { p with
      price := u.price.getD p.price
      maxParticipants := u.maxParticipants.getD p.maxParticipants
      currentParticipants := u.currentParticipants.getD p.currentParticipants
      status := u.status.getD p.status
      averageRating := u.averageRating.getD p.averageRating
      totalRatings := u.totalRatings.getD p.totalRatings }

/-- `tour_package_service.update_tour_package`.  The source performs a blind
`$set` of whatever fields the payload carries — there is no validation
relating `max_participants` to `current_participants`. -/
def update_tour_package (db : DB) (packageId : String) (u : TourPackageUpdate) :
    DB × Except PackageUpdateError PackageDoc :=
  if u.isEmpty then (db, .error .noData)
  else if ¬ isValidObjectId packageId then (db, .error .invalidId)
  else
    match findPackage db.packages packageId with
    | none => (db, .error .notFoundOrUnchanged)
    | some p =>
        let p' := applyPackageUpdate p u
        if p' = p then (db, .error .notFoundOrUnchanged)
        else
          ({ db with packages := updateFirstPackage db.packages packageId (fun q => applyPackageUpdate q u) },
           .ok p')

/-- Errors raised by `rating_service.create_rating`. -/
inductive RatingError where
  | invalidId
  | notEligible
  | duplicateRating
  | invalidValue
deriving DecidableEq, Repr

/-- `RatingCreate` request model (review text omitted). -/
structure RatingCreate where
  tourPackageId : String
  touristId : String
  rating : Int
  bookingId : Option Nat := none
deriving DecidableEq, Repr

/-- The eligibility query of `create_rating`: it matches
`tour_package_id` against the `ObjectId` of the request's package id, but
`tourist_id` against the request's *plain string* (`rating.tourist_id` is
passed verbatim), plus `status == "completed"` and, when the request names a
booking, its `_id`. -/
def bookingMatchesRatingQuery (rating : RatingCreate) (b : BookingDoc) : Bool :=
  b.tourPackageId = BsonId.oid rating.tourPackageId &&
    b.touristId = BsonId.str rating.touristId &&
    b.status = BookingStatus.completed &&
    (match rating.bookingId with
     | none => true
     | some i => b.bid = i)

/-- Round half to even on an exact rational (Python's rounding mode). -/
def roundHalfEven (q : ℚ) : ℤ :=
  let f := ⌊q⌋
  if q - f < 1/2 then f
  else if q - f > 1/2 then f + 1
  else if f % 2 = 0 then f else f + 1

/-- `round(x, 1)` modelled on exact rationals. -/
def roundTenths (q : ℚ) : ℚ := (roundHalfEven (q * 10) : ℚ) / 10

/-- The ratings the `$match` stage of `update_package_rating` selects: stored
`tour_package_id` strings equal to the given package-id string. -/
def ratingsForPackage (ratings : List RatingDoc) (packageId : String) : List RatingDoc :=
  ratings.filter (fun r => r.tourPackageId = packageId)

/-- `rating_service.update_package_rating`.  Aggregates `$avg`/`$sum 1` over
the package's ratings, rounds the average to one decimal and `$set`s the
result into `average_rating` and — note the field name — `rating_count`
(the pydantic model's `total_ratings` field is not touched).  With no
ratings it writes `0.0` and `0`; an invalid package id returns silently. -/
def update_package_rating (db : DB) (packageId : String) : DB :=
  if ¬ isValidObjectId packageId then db
  else
    let matched := ratingsForPackage db.ratings packageId
    if matched.isEmpty then
      { db with
          packages := updateFirstPackage db.packages packageId
            (fun p => { p with averageRating := 0, ratingCount := some 0 }) }
    else
      let avgRating := roundTenths ((matched.map (fun r => (r.rating : ℚ))).sum / (matched.length : ℚ))
      { db with
          packages := updateFirstPackage db.packages packageId
            (fun p => { p with averageRating := avgRating, ratingCount := some matched.length }) }

/-- `rating_service.create_rating`.  Sequence from the source: validate the
package id, look for a completed booking matching the eligibility query
(fail otherwise — "You can only rate packages you've completed"), look for
an existing rating by the same `(tour_package_id, tourist_id)` strings (fail
"You've already rated this package"), require `1 ≤ rating ≤ 5`, insert the
rating, then recompute the package's aggregate. -/
def create_rating (db : DB) (rating : RatingCreate) : DB × Except RatingError RatingDoc :=
  if ¬ isValidObjectId rating.tourPackageId then (db, .error .invalidId)
  else
    match db.bookings.find? (bookingMatchesRatingQuery rating) with
    | none => (db, .error .notEligible)
    | some booking =>
        if (db.ratings.find? (fun r =>
              r.tourPackageId = rating.tourPackageId && r.touristId = rating.touristId)).isSome then
          (db, .error .duplicateRating)
        else if ¬ (1 ≤ rating.rating ∧ rating.rating ≤ 5) then
          (db, .error .invalidValue)
        else
          let doc : RatingDoc :=
            { tourPackageId := rating.tourPackageId
              touristId := rating.touristId
              rating := rating.rating
              bookingId := some (rating.bookingId.getD booking.bid) }
          let db1 : DB := { db with ratings := db.ratings ++ [doc] }
          (update_package_rating db1 rating.tourPackageId, .ok doc)

/-- The read-and-validate phase of `create_booking`: everything up to and
including the capacity check, all of which reads the database exactly once
(the single `find_one` on `tour_packages`).  Returns the package snapshot the
rest of the request uses. -/
def create_booking_check (db : DB) (booking : BookingCreate) (touristId : String) :
    Except BookingError PackageDoc :=
  if ¬ (isValidObjectId touristId && isValidObjectId booking.tourPackageId) then
    .error .invalidId
  else
    match findPackage db.packages booking.tourPackageId with
    | none => .error .notFound
    | some package =>
        if package.status ≠ .active then .error .packageInactive
        else if booking.numberOfPeople >
            package.maxParticipants - package.currentParticipants then
          .error (.insufficientCapacity (package.maxParticipants - package.currentParticipants))
        else .ok package

/-- The write phase of `create_booking`: the booking insert (whose
`total_price` uses the snapshot package's price) followed by the blind
`$inc` of `current_participants` — neither write re-reads or re-checks the
package's counter. -/
def create_booking_commit (db : DB) (booking : BookingCreate) (touristId : String)
    (package : PackageDoc) (picks : List (Fin 36)) : DB × BookingDoc :=
  let doc : BookingDoc :=
    { bid := db.nextBookingId
      tourPackageId := .oid booking.tourPackageId
      touristId := .oid touristId
      numberOfPeople := booking.numberOfPeople
      totalPrice := package.price * (booking.numberOfPeople : ℚ)
      status := .pending
      bookingReference := genBookingReference picks }
  let db1 : DB :=
    { db with
        bookings := db.bookings ++ [doc]
        nextBookingId := db.nextBookingId + 1 }
  ({ db1 with
      packages := updateFirstPackage db1.packages booking.tourPackageId
        (fun p => { p with
            currentParticipants := p.currentParticipants + booking.numberOfPeople }) },
   doc)

/-- The sequential `create_booking` is exactly its check phase followed by its
commit phase; this justifies interleaving the two phases of two concurrent
requests at the `await` points of the source. -/
theorem create_booking_eq_check_commit (db : DB) (booking : BookingCreate)
    (touristId : String) (picks : List (Fin 36)) :
    create_booking db booking touristId picks =
      match create_booking_check db booking touristId with
      | .error e => (db, .error e)
      | .ok package =>
          let r := create_booking_commit db booking touristId package picks
          (r.1, .ok r.2) := by
  unfold create_booking create_booking_check create_booking_commit
  by_cases hv : (isValidObjectId touristId && isValidObjectId booking.tourPackageId) = true
  · simp only [hv, not_true_eq_false, if_false]
    cases hfind : findPackage db.packages booking.tourPackageId with
    | none => simp
    | some package =>
        by_cases hs : package.status = PackageStatus.active
        · by_cases hcap : booking.numberOfPeople >
              package.maxParticipants - package.currentParticipants
          · simp [hs, hcap]
          · simp [hs, hcap]
        · simp [hs]
  · simp [hv]

/-! ### Generic lemmas about the first-match collection operations -/

theorem findPackage_eq_none_iff (l : List PackageDoc) (pid : String) :
    findPackage l pid = none ↔ ∀ q ∈ l, q.pid ≠ pid := by
  induction l with
  | nil => simp [findPackage]
  | cons p rest ih =>
      by_cases h : p.pid = pid
      · simp [findPackage, h]
      · simp [findPackage, h, ih]

theorem updateFirstPackage_of_find_none (l : List PackageDoc) (pid : String)
    (f : PackageDoc → PackageDoc) (h : findPackage l pid = none) :
    updateFirstPackage l pid f = l := by
  induction l with
  | nil => rfl
  | cons p rest ih =>
      by_cases hp : p.pid = pid
      · simp [findPackage, hp] at h
      · simp only [findPackage, hp, if_false, if_neg hp] at h ⊢
        rw [updateFirstPackage, if_neg hp, ih h]

theorem findPackage_decomp (l : List PackageDoc) (pid : String) (p : PackageDoc)
    (h : findPackage l pid = some p) (f : PackageDoc → PackageDoc) :
    ∃ l₁ l₂, l = l₁ ++ p :: l₂ ∧ (∀ q ∈ l₁, q.pid ≠ pid) ∧ p.pid = pid ∧
      updateFirstPackage l pid f = l₁ ++ f p :: l₂ := by
  induction l with
  | nil => simp [findPackage] at h
  | cons q rest ih =>
      by_cases hq : q.pid = pid
      · rw [findPackage, if_pos hq] at h
        obtain rfl : q = p := by injection h
        exact ⟨[], rest, rfl, by simp, hq,
          by rw [updateFirstPackage, if_pos hq]; rfl⟩
      · rw [findPackage, if_neg hq] at h
        obtain ⟨l₁, l₂, hsplit, hl₁, hp, hupd⟩ := ih h
        exact ⟨q :: l₁, l₂, by simp [hsplit], by simpa [hq] using hl₁, hp,
          by rw [updateFirstPackage, if_neg hq, hupd]; rfl⟩

theorem findBooking_eq_none_iff (l : List BookingDoc) (bid : Nat) :
    findBooking l bid = none ↔ ∀ q ∈ l, q.bid ≠ bid := by
  induction l with
  | nil => simp [findBooking]
  | cons b rest ih =>
      by_cases h : b.bid = bid
      · simp [findBooking, h]
      · simp [findBooking, h, ih]

theorem findBooking_decomp (l : List BookingDoc) (bid : Nat) (b : BookingDoc)
    (h : findBooking l bid = some b) (f : BookingDoc → BookingDoc) :
    ∃ l₁ l₂, l = l₁ ++ b :: l₂ ∧ (∀ q ∈ l₁, q.bid ≠ bid) ∧ b.bid = bid ∧
      updateFirstBooking l bid f = l₁ ++ f b :: l₂ := by
  induction l with
  | nil => simp [findBooking] at h
  | cons q rest ih =>
      by_cases hq : q.bid = bid
      · rw [findBooking, if_pos hq] at h
        obtain rfl : q = b := by injection h
        exact ⟨[], rest, rfl, by simp, hq,
          by rw [updateFirstBooking, if_pos hq]; rfl⟩
      · rw [findBooking, if_neg hq] at h
        obtain ⟨l₁, l₂, hsplit, hl₁, hb, hupd⟩ := ih h
        exact ⟨q :: l₁, l₂, by simp [hsplit], by simpa [hq] using hl₁, hb,
          by rw [updateFirstBooking, if_neg hq, hupd]; rfl⟩

theorem map_updateFirstPackage {γ : Type} (l : List PackageDoc) (pid : String)
    (f : PackageDoc → PackageDoc) (g : PackageDoc → γ) (hg : ∀ p, g (f p) = g p) :
    (updateFirstPackage l pid f).map g = l.map g := by
  induction l with
  | nil => rfl
  | cons p rest ih =>
      by_cases hp : p.pid = pid
      · simp [updateFirstPackage, hp, hg]
      · simp [updateFirstPackage, hp, ih]

theorem map_updateFirstBooking {γ : Type} (l : List BookingDoc) (bid : Nat)
    (f : BookingDoc → BookingDoc) (g : BookingDoc → γ) (hg : ∀ b, g (f b) = g b) :
    (updateFirstBooking l bid f).map g = l.map g := by
  induction l with
  | nil => rfl
  | cons b rest ih =>
      by_cases hb : b.bid = bid
      · simp [updateFirstBooking, hb, hg]
      · simp [updateFirstBooking, hb, ih]

theorem findPackage_updateFirstPackage_self (l : List PackageDoc) (pid : String)
    (f : PackageDoc → PackageDoc) (hf : ∀ p, (f p).pid = p.pid) :
    findPackage (updateFirstPackage l pid f) pid = (findPackage l pid).map f := by
  induction l with
  | nil => rfl
  | cons p rest ih =>
      by_cases hp : p.pid = pid
      · simp [updateFirstPackage, findPackage, hp, hf]
      · simp [updateFirstPackage, findPackage, hp, hf, ih]

theorem findBooking_updateFirstBooking_self (l : List BookingDoc) (bid : Nat)
    (f : BookingDoc → BookingDoc) (hf : ∀ b, (f b).bid = b.bid) :
    findBooking (updateFirstBooking l bid f) bid = (findBooking l bid).map f := by
  induction l with
  | nil => rfl
  | cons b rest ih =>
      by_cases hb : b.bid = bid
      · simp [updateFirstBooking, findBooking, hb, hf]
      · simp [updateFirstBooking, findBooking, hb, hf, ih]

theorem mem_updateFirstBooking (l : List BookingDoc) (bid : Nat)
    (f : BookingDoc → BookingDoc) (q : BookingDoc) (h : q ∈ updateFirstBooking l bid f) :
    q ∈ l ∨ ∃ b ∈ l, q = f b := by
  induction l with
  | nil => simp [updateFirstBooking] at h
  | cons b rest ih =>
      by_cases hb : b.bid = bid
      · rw [updateFirstBooking, if_pos hb] at h
        rcases List.mem_cons.mp h with h | h
        · exact Or.inr ⟨b, List.mem_cons_self .., h⟩
        · exact Or.inl (List.mem_cons_of_mem _ h)
      · rw [updateFirstBooking, if_neg hb] at h
        rcases List.mem_cons.mp h with h | h
        · exact Or.inl (h ▸ List.mem_cons_self ..)
        · rcases ih h with h | ⟨b', hb', hq⟩
          · exact Or.inl (List.mem_cons_of_mem _ h)
          · exact Or.inr ⟨b', List.mem_cons_of_mem _ hb', hq⟩

theorem mem_updateFirstPackage (l : List PackageDoc) (pid : String)
    (f : PackageDoc → PackageDoc) (q : PackageDoc) (h : q ∈ updateFirstPackage l pid f) :
    q ∈ l ∨ ∃ p ∈ l, q = f p := by
  induction l with
  | nil => simp [updateFirstPackage] at h
  | cons p rest ih =>
      by_cases hp : p.pid = pid
      · rw [updateFirstPackage, if_pos hp] at h
        rcases List.mem_cons.mp h with h | h
        · exact Or.inr ⟨p, List.mem_cons_self .., h⟩
        · exact Or.inl (List.mem_cons_of_mem _ h)
      · rw [updateFirstPackage, if_neg hp] at h
        rcases List.mem_cons.mp h with h | h
        · exact Or.inl (h ▸ List.mem_cons_self ..)
        · rcases ih h with h | ⟨p', hp', hq⟩
          · exact Or.inl (List.mem_cons_of_mem _ h)
          · exact Or.inr ⟨p', List.mem_cons_of_mem _ hp', hq⟩

/-! ### Capacity accounting: the load of a package and database consistency -/

/-- Whether a `BsonId` is a real `ObjectId` (as opposed to a plain string). -/
def BsonId.isOid : BsonId → Bool
  | .oid _ => true
  | .str _ => false

/-- How many participants a single booking contributes to a package's counter:
its party size while it references the package by `ObjectId` and is not
cancelled, zero otherwise. -/
def loadContrib (b : BookingDoc) (pid : String) : Int :=
  if b.tourPackageId = BsonId.oid pid ∧ b.status ≠ BookingStatus.cancelled then
    b.numberOfPeople
  else 0

/-- The total party size of the non-cancelled bookings referencing a package. -/
def packageLoad : List BookingDoc → String → Int
  | [], _ => 0
  | b :: rest, pid => loadContrib b pid + packageLoad rest pid

theorem packageLoad_append (l₁ l₂ : List BookingDoc) (pid : String) :
    packageLoad (l₁ ++ l₂) pid = packageLoad l₁ pid + packageLoad l₂ pid := by
  induction l₁ with
  | nil => simp [packageLoad]
  | cons b rest ih => simp [packageLoad, ih]; ring

theorem packageLoad_nonneg (l : List BookingDoc) (pid : String)
    (h : ∀ b ∈ l, 0 ≤ b.numberOfPeople) : 0 ≤ packageLoad l pid := by
  induction l with
  | nil => simp [packageLoad]
  | cons b rest ih =>
      have hb := h b (List.mem_cons_self ..)
      have hrest := ih (fun q hq => h q (List.mem_cons_of_mem _ hq))
      have hcontrib : 0 ≤ loadContrib b pid := by
        unfold loadContrib
        split
        · exact hb
        · exact le_refl 0
      simpa [packageLoad] using add_nonneg hcontrib hrest

/-- Consistency of a database state with respect to the capacity accounting:
package ids are unique (MongoDB's `_id` index), each package's
`current_participants` equals the load of its non-cancelled bookings and is
within the capacity ceiling, party sizes are non-negative, and bookings
reference their package by `ObjectId` (as `create_booking` stores them). -/
def Consistent (db : DB) : Prop :=
  (db.packages.map (·.pid)).Nodup ∧
  (∀ p ∈ db.packages, p.currentParticipants = packageLoad db.bookings p.pid) ∧
  (∀ p ∈ db.packages, p.currentParticipants ≤ p.maxParticipants) ∧
  (∀ b ∈ db.bookings, 0 ≤ b.numberOfPeople) ∧
  (∀ b ∈ db.bookings, b.tourPackageId.isOid = true)

instance (db : DB) : Decidable (Consistent db) := by
  unfold Consistent
  infer_instance

/-- A run of the Booking Ledger's mutating operations: booking creation and
booking status transitions. -/
inductive BookingOp where
  | create (req : BookingCreate) (touristId : String) (picks : List (Fin 36))
  | setStatus (bookingId : Nat) (newStatus : BookingStatus)
deriving Repr

/-- An operation's precondition from the data model: a creation request carries
a positive `number_of_people` (§3 of the spec; the code does not itself
enforce this). -/
def BookingOp.wellFormed : BookingOp → Prop
  | .create req _ _ => 1 ≤ req.numberOfPeople
  | .setStatus _ _ => True

instance (op : BookingOp) : Decidable op.wellFormed := by
  cases op <;> (unfold BookingOp.wellFormed; infer_instance)

/-- The state reached by one operation (a failing request raises before — or,
for the dead `modified_count` branch, without — further writes, leaving the
state it returns). -/
def applyBookingOp (db : DB) : BookingOp → DB
  | .create req tid picks => (create_booking db req tid picks).1
  | .setStatus bid st => (update_booking_status db bid st).1

/-- The state after a sequence of Booking Ledger operations. -/
def runBookingOps (db : DB) (ops : List BookingOp) : DB :=
  ops.foldl applyBookingOp db

/-- No status may transition to itself, so the `modified_count == 0` re-raise
in `update_booking_status` is dead code. -/
theorem self_not_mem_validTransitions (s : BookingStatus) : s ∉ validTransitions s := by
  cases s <;> decide

theorem cancelled_mem_validTransitions_iff (s : BookingStatus) :
    BookingStatus.cancelled ∈ validTransitions s ↔
      s = BookingStatus.pending ∨ s = BookingStatus.confirmed := by
  cases s <;> decide

theorem packageLoad_update (m₁ m₂ : List BookingDoc) (b b' : BookingDoc) (pid : String) :
    packageLoad (m₁ ++ b' :: m₂) pid =
      packageLoad (m₁ ++ b :: m₂) pid - loadContrib b pid + loadContrib b' pid := by
  simp only [packageLoad_append, packageLoad]
  ring

theorem loadContrib_ne_pid (b : BookingDoc) (pid : String)
    (h : b.tourPackageId ≠ BsonId.oid pid) : loadContrib b pid = 0 := by
  unfold loadContrib
  rw [if_neg]
  intro hcon
  exact h hcon.1

theorem loadContrib_oid_ne (b : BookingDoc) (h0 pid : String)
    (hb : b.tourPackageId = BsonId.oid h0) (hne : h0 ≠ pid) : loadContrib b pid = 0 := by
  apply loadContrib_ne_pid
  rw [hb]
  intro hcon
  exact hne (by injection hcon)

theorem loadContrib_set_status (b : BookingDoc) (st : BookingStatus) (pid : String)
    (hst : st ≠ BookingStatus.cancelled) (hb : b.status ≠ BookingStatus.cancelled) :
    loadContrib { b with status := st } pid = loadContrib b pid := by
  unfold loadContrib
  simp [hst, hb]

theorem loadContrib_set_cancelled (b : BookingDoc) (pid : String) :
    loadContrib { b with status := BookingStatus.cancelled } pid = 0 := by
  unfold loadContrib
  simp

theorem loadContrib_active (b : BookingDoc) (pid : String)
    (hb : b.tourPackageId = BsonId.oid pid) (hs : b.status ≠ BookingStatus.cancelled) :
    loadContrib b pid = b.numberOfPeople := by
  unfold loadContrib
  rw [if_pos ⟨hb, hs⟩]

/-- First-match update of a package collection with unique ids: every element
of the result is either an untouched package with a different id, or the
image of the (unique) matching package. -/
theorem mem_updateFirstPackage_nodup (l : List PackageDoc) (pid : String)
    (f : PackageDoc → PackageDoc) (p₀ : PackageDoc)
    (hfind : findPackage l pid = some p₀)
    (hnodup : (l.map (·.pid)).Nodup)
    (q : PackageDoc) (hq : q ∈ updateFirstPackage l pid f) :
    (q ∈ l ∧ q.pid ≠ pid) ∨ q = f p₀ := by
  obtain ⟨l₁, l₂, hsplit, hl₁, hp₀, hupd⟩ := findPackage_decomp l pid p₀ hfind f
  rw [hupd] at hq
  rcases List.mem_append.mp hq with hq | hq
  · exact Or.inl ⟨hsplit ▸ List.mem_append_left _ hq, hl₁ q hq⟩
  · rcases List.mem_cons.mp hq with hq | hq
    · exact Or.inr hq
    · have hl₂ : ∀ r ∈ l₂, r.pid ≠ pid := by
        rw [hsplit] at hnodup
        simp only [List.map_append, List.map_cons, List.nodup_append] at hnodup
        intro r hr hcon
        have hmem : p₀.pid ∈ List.map (fun x => x.pid) l₂ := by
          rw [hp₀, ← hcon]
          exact List.mem_map.mpr ⟨r, hr, rfl⟩
        exact (List.nodup_cons.mp hnodup.2.1).1 hmem
      exact Or.inl ⟨hsplit ▸ List.mem_append_right _ (List.mem_cons_of_mem _ hq), hl₂ q hq⟩

theorem findPackage_pid (l : List PackageDoc) (pid : String) (p : PackageDoc)
    (h : findPackage l pid = some p) : p.pid = pid := by
  obtain ⟨_, _, _, _, hpid, _⟩ := findPackage_decomp l pid p h id
  exact hpid

theorem findPackage_mem (l : List PackageDoc) (pid : String) (p : PackageDoc)
    (h : findPackage l pid = some p) : p ∈ l := by
  obtain ⟨l₁, l₂, hsplit, _, _, _⟩ := findPackage_decomp l pid p h id
  rw [hsplit]
  exact List.mem_append_right _ (List.mem_cons_self ..)

theorem findBooking_bid (l : List BookingDoc) (bid : Nat) (b : BookingDoc)
    (h : findBooking l bid = some b) : b.bid = bid := by
  obtain ⟨_, _, _, _, hbid, _⟩ := findBooking_decomp l bid b h id
  exact hbid

theorem findBooking_mem (l : List BookingDoc) (bid : Nat) (b : BookingDoc)
    (h : findBooking l bid = some b) : b ∈ l := by
  obtain ⟨l₁, l₂, hsplit, _, _, _⟩ := findBooking_decomp l bid b h id
  rw [hsplit]
  exact List.mem_append_right _ (List.mem_cons_self ..)

/-- Booking creation preserves database consistency provided the request's
party size is non-negative (§3 requires it positive; the code itself never
checks). -/
theorem consistent_create_booking (db : DB) (req : BookingCreate) (tid : String)
    (picks : List (Fin 36)) (hc : Consistent db) (hn : 0 ≤ req.numberOfPeople) :
    Consistent (create_booking db req tid picks).1 := by
  obtain ⟨hnodup, hload, hcap, hnn, hoid⟩ := hc
  unfold create_booking
  by_cases hv : (isValidObjectId tid && isValidObjectId req.tourPackageId) = true
  swap
  · simp only [hv, not_false_eq_true, if_true]
    exact ⟨hnodup, hload, hcap, hnn, hoid⟩
  simp only [hv, not_true_eq_false, if_false]
  cases hfind : findPackage db.packages req.tourPackageId with
  | none => exact ⟨hnodup, hload, hcap, hnn, hoid⟩
  | some package =>
      by_cases hst : package.status = PackageStatus.active
      swap
      · simp only [ne_eq, hst, not_false_eq_true, if_true]
        exact ⟨hnodup, hload, hcap, hnn, hoid⟩
      by_cases hcap2 : req.numberOfPeople >
          package.maxParticipants - package.currentParticipants
      · simp only [ne_eq, hst, not_true_eq_false, if_false, hcap2, if_true]
        exact ⟨hnodup, hload, hcap, hnn, hoid⟩
      simp only [ne_eq, hst, not_true_eq_false, if_false, hcap2]
      have hpid : package.pid = req.tourPackageId := findPackage_pid _ _ _ hfind
      have hpmem : package ∈ db.packages := findPackage_mem _ _ _ hfind
      push_neg at hcap2
      refine ⟨?_, ?_, ?_, ?_, ?_⟩
      · have hmap := map_updateFirstPackage db.packages req.tourPackageId
          (fun p => { p with currentParticipants := p.currentParticipants + req.numberOfPeople })
          (fun x => x.pid) (fun p => rfl)
        simpa [hmap] using hnodup
      · intro q hq
        rcases mem_updateFirstPackage_nodup db.packages req.tourPackageId _ package
            hfind hnodup q hq with ⟨hqmem, hqne⟩ | rfl
        · have hdoc : loadContrib
              { bid := db.nextBookingId
                tourPackageId := .oid req.tourPackageId
                touristId := .oid tid
                numberOfPeople := req.numberOfPeople
                totalPrice := package.price * (req.numberOfPeople : ℚ)
                status := .pending
                bookingReference := genBookingReference picks } q.pid = 0 :=
            loadContrib_oid_ne _ req.tourPackageId q.pid rfl (fun h => hqne h.symm)
          simpa [packageLoad_append, packageLoad, hdoc] using hload q hqmem
        · have hdoc : loadContrib
              { bid := db.nextBookingId
                tourPackageId := .oid req.tourPackageId
                touristId := .oid tid
                numberOfPeople := req.numberOfPeople
                totalPrice := package.price * (req.numberOfPeople : ℚ)
                status := .pending
                bookingReference := genBookingReference picks } package.pid =
              req.numberOfPeople := by
            apply loadContrib_active _ _ (by rw [hpid]) (by simp)
          simpa [packageLoad_append, packageLoad, hdoc] using
            congrArg (· + req.numberOfPeople) (hload package hpmem)
      · intro q hq
        rcases mem_updateFirstPackage_nodup db.packages req.tourPackageId _ package
            hfind hnodup q hq with ⟨hqmem, _⟩ | rfl
        · exact hcap q hqmem
        · simpa using by linarith [hcap package hpmem]
      · intro b hb
        rcases List.mem_append.mp hb with hb | hb
        · exact hnn b hb
        · simp only [List.mem_singleton] at hb
          subst hb
          exact hn
      · intro b hb
        rcases List.mem_append.mp hb with hb | hb
        · exact hoid b hb
        · simp only [List.mem_singleton] at hb
          subst hb
          rfl

/-- Booking status transitions preserve database consistency: legal
non-cancelling transitions leave every counter untouched, and a cancellation
removes exactly the booking's contribution from its package's counter. -/
theorem consistent_update_booking_status (db : DB) (bid : Nat) (st : BookingStatus)
    (hc : Consistent db) : Consistent (update_booking_status db bid st).1 := by
  obtain ⟨hnodup, hload, hcap, hnn, hoid⟩ := hc
  unfold update_booking_status
  cases hfind : findBooking db.bookings bid with
  | none => exact ⟨hnodup, hload, hcap, hnn, hoid⟩
  | some b =>
      by_cases hmem : st ∈ validTransitions b.status
      swap
      · simp only [hmem, not_false_eq_true, if_true]
        exact ⟨hnodup, hload, hcap, hnn, hoid⟩
      simp only [hmem, not_true_eq_false, if_false]
      have hself : ¬ b.status = st := by
        intro h
        rw [h] at hmem
        exact self_not_mem_validTransitions st hmem
      rw [if_neg hself]
      have hbmem : b ∈ db.bookings := findBooking_mem _ _ _ hfind
      have hbstat : b.status ≠ BookingStatus.cancelled := by
        intro h
        rw [h] at hmem
        simp [validTransitions] at hmem
      have hbn : 0 ≤ b.numberOfPeople := hnn b hbmem
      obtain ⟨m₁, m₂, hsplit, hm₁, hbid, hupd⟩ :=
        findBooking_decomp db.bookings bid b hfind (fun x => { x with status := st })
      have hloadnew : ∀ pid,
          packageLoad (updateFirstBooking db.bookings bid
            (fun x => { x with status := st })) pid =
          packageLoad db.bookings pid - loadContrib b pid +
            loadContrib { b with status := st } pid := by
        intro pid
        rw [hupd, packageLoad_update m₁ m₂ b _ pid, ← hsplit]
      have hpeople : ∀ q ∈ updateFirstBooking db.bookings bid
          (fun x => { x with status := st }), 0 ≤ q.numberOfPeople := by
        intro q hq
        rcases mem_updateFirstBooking _ _ _ q hq with hq | ⟨x, hx, rfl⟩
        · exact hnn q hq
        · exact hnn x hx
      have hoidnew : ∀ q ∈ updateFirstBooking db.bookings bid
          (fun x => { x with status := st }), q.tourPackageId.isOid = true := by
        intro q hq
        rcases mem_updateFirstBooking _ _ _ q hq with hq | ⟨x, hx, rfl⟩
        · exact hoid q hq
        · exact hoid x hx
      by_cases hcancel : st = BookingStatus.cancelled
      swap
      · rw [if_neg hcancel]
        refine ⟨hnodup, ?_, hcap, hpeople, hoidnew⟩
        intro p hp
        rw [hloadnew p.pid, loadContrib_set_status b st p.pid hcancel hbstat]
        rw [sub_add_cancel]
        exact hload p hp
      subst hcancel
      rw [if_pos rfl]
      obtain ⟨h0, hb0⟩ : ∃ h0, b.tourPackageId = BsonId.oid h0 := by
        cases hbid0 : b.tourPackageId with
        | oid s => exact ⟨s, rfl⟩
        | str s =>
            have := hoid b hbmem
            rw [hbid0] at this
            simp [BsonId.isOid] at this
      have hhex : b.tourPackageId.hexOf = h0 := by rw [hb0]; rfl
      have hload0 : ∀ pid, pid ≠ h0 →
          packageLoad (updateFirstBooking db.bookings bid
            (fun x => { x with status := BookingStatus.cancelled })) pid =
          packageLoad db.bookings pid := by
        intro pid hpid
        rw [hloadnew pid, loadContrib_set_cancelled,
          loadContrib_oid_ne b h0 pid hb0 (fun h => hpid h.symm)]
        ring
      have hloadh0 :
          packageLoad (updateFirstBooking db.bookings bid
            (fun x => { x with status := BookingStatus.cancelled })) h0 =
          packageLoad db.bookings h0 - b.numberOfPeople := by
        rw [hloadnew h0, loadContrib_set_cancelled, loadContrib_active b h0 hb0 hbstat]
        ring
      rw [hhex]
      cases hfp : findPackage db.packages h0 with
      | none =>
          have hnofp : ∀ q ∈ db.packages, q.pid ≠ h0 :=
            (findPackage_eq_none_iff db.packages h0).mp hfp
          rw [updateFirstPackage_of_find_none db.packages h0 _ hfp]
          refine ⟨hnodup, ?_, hcap, hpeople, hoidnew⟩
          intro p hp
          rw [hload0 p.pid (hnofp p hp)]
          exact hload p hp
      | some p₀ =>
          have hp₀pid : p₀.pid = h0 := findPackage_pid _ _ _ hfp
          have hp₀mem : p₀ ∈ db.packages := findPackage_mem _ _ _ hfp
          refine ⟨?_, ?_, ?_, hpeople, hoidnew⟩
          · have hmap := map_updateFirstPackage db.packages h0
              (fun p => { p with currentParticipants := p.currentParticipants - b.numberOfPeople })
              (fun x => x.pid) (fun p => rfl)
            simpa [hmap] using hnodup
          · intro q hq
            rcases mem_updateFirstPackage_nodup db.packages h0 _ p₀ hfp hnodup q hq with
              ⟨hqmem, hqne⟩ | rfl
            · rw [hload0 q.pid hqne]
              exact hload q hqmem
            · show p₀.currentParticipants - b.numberOfPeople = _
              rw [show (({ p₀ with currentParticipants :=
                    p₀.currentParticipants - b.numberOfPeople } : PackageDoc).pid) = h0 from hp₀pid,
                hloadh0, hload p₀ hp₀mem, hp₀pid]
          · intro q hq
            rcases mem_updateFirstPackage_nodup db.packages h0 _ p₀ hfp hnodup q hq with
              ⟨hqmem, _⟩ | rfl
            · exact hcap q hqmem
            · have := hcap p₀ hp₀mem
              show p₀.currentParticipants - b.numberOfPeople ≤ p₀.maxParticipants
              linarith

theorem consistent_applyBookingOp (db : DB) (op : BookingOp) (hc : Consistent db)
    (hop : op.wellFormed) : Consistent (applyBookingOp db op) := by
  cases op with
  | create req tid picks =>
      exact consistent_create_booking db req tid picks hc (by exact le_trans (by norm_num) hop)
  | setStatus bid st => exact consistent_update_booking_status db bid st hc

theorem consistent_runBookingOps (db : DB) (ops : List BookingOp) (hc : Consistent db)
    (hops : ∀ op ∈ ops, op.wellFormed) : Consistent (runBookingOps db ops) := by
  induction ops generalizing db with
  | nil => exact hc
  | cons op rest ih =>
      have h1 : Consistent (applyBookingOp db op) :=
        consistent_applyBookingOp db op hc (hops op (List.mem_cons_self ..))
      have h2 := ih (applyBookingOp db op) h1 (fun o ho => hops o (List.mem_cons_of_mem _ ho))
      simpa [runBookingOps, List.foldl] using h2

theorem consistent_capacity (db : DB) (hc : Consistent db) :
    ∀ p ∈ db.packages,
      0 ≤ p.currentParticipants ∧ p.currentParticipants ≤ p.maxParticipants := by
  obtain ⟨_, hload, hcap, hnn, _⟩ := hc
  intro p hp
  refine ⟨?_, hcap p hp⟩
  rw [hload p hp]
  exact packageLoad_nonneg _ _ hnn

instance {ε α : Type} [DecidableEq ε] [DecidableEq α] : DecidableEq (Except ε α) := fun a b =>
  match a, b with
  | .ok x, .ok y =>
      if h : x = y then isTrue (h ▸ rfl) else isFalse (fun hc => h (by injection hc))
  | .error x, .error y =>
      if h : x = y then isTrue (h ▸ rfl) else isFalse (fun hc => h (by injection hc))
  | .ok _, .error _ => isFalse (fun hc => Except.noConfusion hc)
  | .error _, .ok _ => isFalse (fun hc => Except.noConfusion hc)

/-! ### Concrete values used by counterexamples and witnesses -/

/-- A well-formed 24-hex-character `ObjectId` string for a package. -/
def hexPkg : String := "aaaaaaaaaaaaaaaaaaaaaaaa"

/-- A well-formed `ObjectId` string for a tourist. -/
def hexTourist : String := "bbbbbbbbbbbbbbbbbbbbbbbb"

/-- A second tourist id. -/
def hexTourist2 : String := "cccccccccccccccccccccccc"

/-- A fixed outcome for the reference generator's random choices. -/
def picks0 : List (Fin 36) := List.replicate 8 0

/-! ### C1 -/

/-- A package with three of five slots taken, backed by a pending booking. -/
def packageC1 : PackageDoc :=
  { pid := hexPkg, price := 100, maxParticipants := 5, currentParticipants := 3,
    status := .active, averageRating := 0, totalRatings := 0, ratingCount := none }

/-- A consistent database: the counter of `packageC1` is exactly the party
size of its one pending booking. -/
def dbC1 : DB :=
  { packages := [packageC1]
    bookings := [{ bid := 0, tourPackageId := .oid hexPkg, touristId := .oid hexTourist,
                   numberOfPeople := 3, totalPrice := 300, status := .pending,
                   bookingReference := "AAAAAAAA" }]
    ratings := []
    nextBookingId := 1 }

/-- Claim C1 (counterexample): from a consistent state satisfying
`0 ≤ current_participants ≤ max_participants`, one `update_tour_package`
request that sets `max_participants := 2` succeeds — the service performs a
blind `$set` with no validation — and leaves the package with
`current_participants = 3 > max_participants = 2`, violating the claimed
invariant. -/
theorem C1_counterexample :
    Consistent dbC1 ∧
    (∀ p ∈ dbC1.packages,
       0 ≤ p.currentParticipants ∧ p.currentParticipants ≤ p.maxParticipants) ∧
    (update_tour_package dbC1 hexPkg { maxParticipants := some 2 }).2 =
      .ok { packageC1 with maxParticipants := 2 } ∧
    ¬ (∀ p ∈ (update_tour_package dbC1 hexPkg { maxParticipants := some 2 }).1.packages,
        0 ≤ p.currentParticipants ∧ p.currentParticipants ≤ p.maxParticipants) := by
  refine ⟨by decide, by decide, by decide, by decide⟩

/-- Claim C1 (amended): after any sequence of booking creations (with positive
`number_of_people`, as the data model requires) and booking status
transitions, starting from a consistent database, every package satisfies
`0 ≤ current_participants ≤ max_participants`.  The original claim also
quantified over `update_tour_package`, which `C1_counterexample` shows can
break the invariant, and the code does not reject non-positive party sizes
on its own. -/
theorem C1_capacity_invariant (db : DB) (ops : List BookingOp)
    (hdb : Consistent db) (hops : ∀ op ∈ ops, op.wellFormed) :
    ∀ p ∈ (runBookingOps db ops).packages,
      0 ≤ p.currentParticipants ∧ p.currentParticipants ≤ p.maxParticipants :=
  consistent_capacity _ (consistent_runBookingOps db ops hdb hops)

/-- The initial state for the C1 witness run: an empty five-slot package. -/
def dbC1w : DB :=
  { packages := [{ pid := hexPkg, price := 100, maxParticipants := 5,
                   currentParticipants := 0, status := .active, averageRating := 0,
                   totalRatings := 0, ratingCount := none }]
    bookings := [], ratings := [], nextBookingId := 0 }

/-- The C1 witness run: book three people, confirm, then cancel. -/
def opsC1w : List BookingOp :=
  [ .create { tourPackageId := hexPkg, numberOfPeople := 3 } hexTourist picks0
  , .setStatus 0 .confirmed
  , .setStatus 0 .cancelled ]

/-- Witness for `C1_capacity_invariant` at a concrete consistent database and
a concrete operation sequence. -/
theorem C1_capacity_invariant_witness :
    Consistent dbC1w ∧ (∀ op ∈ opsC1w, op.wellFormed) ∧
    ∀ p ∈ (runBookingOps dbC1w opsC1w).packages,
      0 ≤ p.currentParticipants ∧ p.currentParticipants ≤ p.maxParticipants :=
  ⟨by decide, by decide, C1_capacity_invariant dbC1w opsC1w (by decide) (by decide)⟩

/-! ### C2 -/

/-- The §8 scenario package: `max_participants = 5`, `current_participants = 0`. -/
def packageC2 : PackageDoc :=
  { pid := hexPkg, price := 100, maxParticipants := 5, currentParticipants := 0,
    status := .active, averageRating := 0, totalRatings := 0, ratingCount := none }

/-- The database both concurrent requests start from. -/
def dbC2 : DB :=
  { packages := [packageC2], bookings := [], ratings := [], nextBookingId := 0 }

/-- Each of the two simultaneous requests asks for three people. -/
def reqC2 : BookingCreate := { tourPackageId := hexPkg, numberOfPeople := 3 }

/-- Claim C2 (code bug): `create_booking`'s capacity check and its blind
`$inc` are separate, unguarded database operations
(`create_booking_eq_check_commit` relates them to the sequential code), so
under the interleaving read₁, read₂, write₁, write₂ both requests for three
people pass the check against the same snapshot (`current_participants = 0`)
and both commits apply: both bookings are created and the package ends with
`current_participants = 6 > max_participants = 5` — an oversell, where the
claim requires at most one request to succeed.  The code has no
compare-and-swap guard and no `ConcurrentModification` error at all. -/
theorem C2_oversell :
    create_booking_check dbC2 reqC2 hexTourist = .ok packageC2 ∧
    create_booking_check dbC2 reqC2 hexTourist2 = .ok packageC2 ∧
    ((create_booking_commit
        (create_booking_commit dbC2 reqC2 hexTourist packageC2 picks0).1
        reqC2 hexTourist2 packageC2 picks0).1.packages.map
      (fun p => (p.currentParticipants, p.maxParticipants))) = [(6, 5)] ∧
    ((create_booking_commit
        (create_booking_commit dbC2 reqC2 hexTourist packageC2 picks0).1
        reqC2 hexTourist2 packageC2 picks0).1.bookings.length = 2) ∧
    ¬ (∀ p ∈ (create_booking_commit
        (create_booking_commit dbC2 reqC2 hexTourist packageC2 picks0).1
        reqC2 hexTourist2 packageC2 picks0).1.packages,
        p.currentParticipants ≤ p.maxParticipants) := by
  refine ⟨by decide, by decide, by decide, by decide, by decide⟩

/-! ### Unfolding lemmas for `update_booking_status` -/

theorem update_booking_status_not_allowed (db : DB) (bid : Nat) (st : BookingStatus)
    (b : BookingDoc) (hfind : findBooking db.bookings bid = some b)
    (hmem : st ∉ validTransitions b.status) :
    update_booking_status db bid st = (db, .error (.invalidTransition b.status st)) := by
  unfold update_booking_status
  rw [hfind]
  exact if_pos hmem

theorem update_booking_status_allowed (db : DB) (bid : Nat) (st : BookingStatus)
    (b : BookingDoc) (hfind : findBooking db.bookings bid = some b)
    (hmem : st ∈ validTransitions b.status) :
    update_booking_status db bid st =
      (if st = .cancelled then
         { db with
             bookings := updateFirstBooking db.bookings bid (fun x => { x with status := st })
             packages := updateFirstPackage db.packages b.tourPackageId.hexOf
               (fun p => { p with
                   currentParticipants := p.currentParticipants - b.numberOfPeople }) }
       else
         { db with
             bookings := updateFirstBooking db.bookings bid (fun x => { x with status := st }) },
       .ok { b with status := st }) := by
  have hself : ¬ b.status = st := by
    intro h
    rw [h] at hmem
    exact self_not_mem_validTransitions st hmem
  unfold update_booking_status
  rw [hfind]
  dsimp only
  rw [if_neg (not_not_intro hmem), if_neg hself]

/-! ### C3 -/

/-- Claim C3 (confirmed): for an existing booking, `update_booking_status`
succeeds exactly when the (current, requested) pair lies in the table
{pending→confirmed, pending→cancelled, confirmed→completed,
confirmed→cancelled}; every pair outside the table fails with the
`InvalidTransition` error naming the current and requested states; and the
terminal states `cancelled` and `completed` always fail, whatever is
requested. -/
theorem C3_transition_table (db : DB) (bid : Nat) (st : BookingStatus) (b : BookingDoc)
    (hfind : findBooking db.bookings bid = some b) :
    ((∃ db' doc, update_booking_status db bid st = (db', .ok doc)) ↔
      ((b.status = .pending ∧ (st = .confirmed ∨ st = .cancelled)) ∨
       (b.status = .confirmed ∧ (st = .completed ∨ st = .cancelled)))) ∧
    (¬ ((b.status = .pending ∧ (st = .confirmed ∨ st = .cancelled)) ∨
        (b.status = .confirmed ∧ (st = .completed ∨ st = .cancelled))) →
      (update_booking_status db bid st).2 = .error (.invalidTransition b.status st)) ∧
    ((b.status = .cancelled ∨ b.status = .completed) →
      (update_booking_status db bid st).2 = .error (.invalidTransition b.status st)) := by
  have hiff : st ∈ validTransitions b.status ↔
      ((b.status = .pending ∧ (st = .confirmed ∨ st = .cancelled)) ∨
       (b.status = .confirmed ∧ (st = .completed ∨ st = .cancelled))) := by
    cases hstat : b.status <;> cases st <;> simp [validTransitions]
  by_cases hmem : st ∈ validTransitions b.status
  · have heq := update_booking_status_allowed db bid st b hfind hmem
    refine ⟨iff_of_true ⟨_, _, heq⟩ (hiff.mp hmem),
      fun h => absurd (hiff.mp hmem) h, fun h => ?_⟩
    rcases h with h | h <;> rw [h] at hmem <;> simp [validTransitions] at hmem
  · have heq := update_booking_status_not_allowed db bid st b hfind hmem
    refine ⟨?_, fun _ => by rw [heq], fun _ => by rw [heq]⟩
    rw [heq]
    constructor
    · rintro ⟨db', doc, hpair⟩
      exact Except.noConfusion (congrArg Prod.snd hpair)
    · intro h
      exact absurd h ((not_iff_not.mpr hiff).mp hmem)

/-- A database with one confirmed booking, for the C3 witness. -/
def dbC3w : DB :=
  { packages := [packageC2]
    bookings := [{ bid := 7, tourPackageId := .oid hexPkg, touristId := .oid hexTourist,
                   numberOfPeople := 2, totalPrice := 200, status := .confirmed,
                   bookingReference := "BBBBBBBB" }]
    ratings := []
    nextBookingId := 8 }

/-- The confirmed booking stored in `dbC3w`. -/
def bC3w : BookingDoc :=
  { bid := 7, tourPackageId := .oid hexPkg, touristId := .oid hexTourist,
    numberOfPeople := 2, totalPrice := 200, status := .confirmed,
    bookingReference := "BBBBBBBB" }

/-- Witness for `C3_transition_table`: the confirmed booking of `dbC3w`,
asked to move to `completed`. -/
theorem C3_transition_table_witness :
    findBooking dbC3w.bookings 7 = some bC3w ∧
    (((∃ db' doc, update_booking_status dbC3w 7 .completed = (db', .ok doc)) ↔
      ((bC3w.status = .pending ∧
          (BookingStatus.completed = .confirmed ∨ BookingStatus.completed = .cancelled)) ∨
       (bC3w.status = .confirmed ∧
          (BookingStatus.completed = .completed ∨ BookingStatus.completed = .cancelled)))) ∧
    (¬ ((bC3w.status = .pending ∧
          (BookingStatus.completed = .confirmed ∨ BookingStatus.completed = .cancelled)) ∨
        (bC3w.status = .confirmed ∧
          (BookingStatus.completed = .completed ∨ BookingStatus.completed = .cancelled))) →
      (update_booking_status dbC3w 7 .completed).2 =
        .error (.invalidTransition bC3w.status .completed)) ∧
    ((bC3w.status = .cancelled ∨ bC3w.status = .completed) →
      (update_booking_status dbC3w 7 .completed).2 =
        .error (.invalidTransition bC3w.status .completed))) :=
  ⟨by decide, C3_transition_table dbC3w 7 .completed bC3w (by decide)⟩

/-! ### C4, C5: the capacity side effect of cancellation -/

/-- The effect of a successful cancellation: the booking's stored status
becomes `cancelled`, and the package it references has its
`current_participants` decremented by exactly `number_of_people`, with no
floor. -/
theorem cancel_effect (db : DB) (bid : Nat) (b : BookingDoc)
    (hfind : findBooking db.bookings bid = some b)
    (hmem : BookingStatus.cancelled ∈ validTransitions b.status) :
    (update_booking_status db bid .cancelled).2 = .ok { b with status := .cancelled } ∧
    findPackage (update_booking_status db bid .cancelled).1.packages b.tourPackageId.hexOf =
      (findPackage db.packages b.tourPackageId.hexOf).map
        (fun p => { p with currentParticipants := p.currentParticipants - b.numberOfPeople }) ∧
    (update_booking_status db bid .cancelled).1.bookings =
      updateFirstBooking db.bookings bid (fun x => { x with status := .cancelled }) := by
  have heq := update_booking_status_allowed db bid .cancelled b hfind hmem
  rw [heq]
  refine ⟨rfl, ?_, rfl⟩
  exact findPackage_updateFirstPackage_self db.packages _ _ (fun p => rfl)

/-- Claim C4 (confirmed): cancelling a `pending` or `confirmed` booking
succeeds and decrements its package's `current_participants` by exactly the
booking's `number_of_people`; a second cancellation attempt fails with
`InvalidTransition cancelled cancelled` and leaves the database exactly as
the first cancellation left it (no double release); and no successful
transition other than to `cancelled` changes any package. -/
theorem C4_cancel_release (db : DB) (bid : Nat) (b : BookingDoc)
    (hfind : findBooking db.bookings bid = some b)
    (hs : b.status = .pending ∨ b.status = .confirmed) :
    ((update_booking_status db bid .cancelled).2 = .ok { b with status := .cancelled } ∧
     findPackage (update_booking_status db bid .cancelled).1.packages b.tourPackageId.hexOf =
       (findPackage db.packages b.tourPackageId.hexOf).map
         (fun p => { p with currentParticipants := p.currentParticipants - b.numberOfPeople }) ∧
     update_booking_status (update_booking_status db bid .cancelled).1 bid .cancelled =
       ((update_booking_status db bid .cancelled).1,
        .error (.invalidTransition .cancelled .cancelled))) ∧
    (∀ st, st ≠ BookingStatus.cancelled → ∀ db' doc,
       update_booking_status db bid st = (db', .ok doc) → db'.packages = db.packages) := by
  have hmem : BookingStatus.cancelled ∈ validTransitions b.status :=
    (cancelled_mem_validTransitions_iff b.status).mpr hs
  obtain ⟨hok, hpkg, hbk⟩ := cancel_effect db bid b hfind hmem
  constructor
  · refine ⟨hok, hpkg, ?_⟩
    have hfind2 : findBooking (update_booking_status db bid .cancelled).1.bookings bid =
        some { b with status := BookingStatus.cancelled } := by
      rw [hbk, findBooking_updateFirstBooking_self db.bookings bid
        (fun x => { x with status := BookingStatus.cancelled }) (fun x => rfl), hfind]
      rfl
    exact update_booking_status_not_allowed _ bid .cancelled _ hfind2
      (by simp [validTransitions])
  · intro st hne db' doc hupd
    by_cases hmem2 : st ∈ validTransitions b.status
    · have heq := update_booking_status_allowed db bid st b hfind hmem2
      rw [heq] at hupd
      have hfst := congrArg Prod.fst hupd
      simp only at hfst
      rw [if_neg hne] at hfst
      rw [← hfst]
    · have heq := update_booking_status_not_allowed db bid st b hfind hmem2
      rw [heq] at hupd
      exact Except.noConfusion (congrArg Prod.snd hupd)

/-- A database for the C4 witness: a pending two-person booking backing a
package with two of five slots taken. -/
def dbC4w : DB :=
  { packages := [{ pid := hexPkg, price := 50, maxParticipants := 5,
                   currentParticipants := 2, status := .active, averageRating := 0,
                   totalRatings := 0, ratingCount := none }]
    bookings := [{ bid := 0, tourPackageId := .oid hexPkg, touristId := .oid hexTourist,
                   numberOfPeople := 2, totalPrice := 100, status := .pending,
                   bookingReference := "CCCCCCCC" }]
    ratings := []
    nextBookingId := 1 }

/-- The pending booking stored in `dbC4w`. -/
def bC4w : BookingDoc :=
  { bid := 0, tourPackageId := .oid hexPkg, touristId := .oid hexTourist,
    numberOfPeople := 2, totalPrice := 100, status := .pending,
    bookingReference := "CCCCCCCC" }

/-- Witness for `C4_cancel_release` on `dbC4w`. -/
theorem C4_cancel_release_witness :
    findBooking dbC4w.bookings 0 = some bC4w ∧
    (bC4w.status = .pending ∨ bC4w.status = .confirmed) ∧
    (((update_booking_status dbC4w 0 .cancelled).2 =
        .ok { bC4w with status := .cancelled } ∧
      findPackage (update_booking_status dbC4w 0 .cancelled).1.packages
          bC4w.tourPackageId.hexOf =
        (findPackage dbC4w.packages bC4w.tourPackageId.hexOf).map
          (fun p => { p with
              currentParticipants := p.currentParticipants - bC4w.numberOfPeople }) ∧
      update_booking_status (update_booking_status dbC4w 0 .cancelled).1 0 .cancelled =
        ((update_booking_status dbC4w 0 .cancelled).1,
         .error (.invalidTransition .cancelled .cancelled))) ∧
     (∀ st, st ≠ BookingStatus.cancelled → ∀ db' doc,
        update_booking_status dbC4w 0 st = (db', .ok doc) →
          db'.packages = dbC4w.packages)) :=
  ⟨by decide, by decide, C4_cancel_release dbC4w 0 bC4w (by decide) (by decide)⟩

/-- A confirmed three-person booking that coexists with a package whose
counter is only 1 (such states are reachable because `update_tour_package`
can `$set` `current_participants` arbitrarily). -/
def bC5 : BookingDoc :=
  { bid := 0, tourPackageId := .oid hexPkg, touristId := .oid hexTourist,
    numberOfPeople := 3, totalPrice := 300, status := .confirmed,
    bookingReference := "DDDDDDDD" }

/-- The database holding `bC5` next to the package with counter 1. -/
def dbC5 : DB :=
  { packages := [{ pid := hexPkg, price := 100, maxParticipants := 10,
                   currentParticipants := 1, status := .active, averageRating := 0,
                   totalRatings := 0, ratingCount := none }]
    bookings := [bC5]
    ratings := []
    nextBookingId := 1 }

/-- Claim C5 (counterexample): the cancellation `$inc` has no floor at zero —
cancelling a confirmed three-person booking on a package whose counter is 1
succeeds and drives `current_participants` to `-2 < 0`, where the claim says
the result is never negative. -/
theorem C5_counterexample :
    (update_booking_status dbC5 0 .cancelled).2 =
      .ok { bid := 0, tourPackageId := .oid hexPkg, touristId := .oid hexTourist,
            numberOfPeople := 3, totalPrice := 300, status := .cancelled,
            bookingReference := "DDDDDDDD" } ∧
    (update_booking_status dbC5 0 .cancelled).1.packages.map (·.currentParticipants) =
      [-2] ∧
    ¬ (∀ p ∈ (update_booking_status dbC5 0 .cancelled).1.packages,
        0 ≤ p.currentParticipants) := by
  refine ⟨by decide, by decide, by decide⟩

/-- Claim C5 (amended): a cancellation decrements the package's
`current_participants` by exactly `n` with no floor at zero — the code
performs a plain `$inc` of `-number_of_people`, so the result is negative
whenever `n` exceeds the counter (as `C5_counterexample` exhibits). -/
theorem C5_release_exact_decrement (db : DB) (bid : Nat) (b : BookingDoc)
    (hfind : findBooking db.bookings bid = some b)
    (hmem : BookingStatus.cancelled ∈ validTransitions b.status) :
    findPackage (update_booking_status db bid .cancelled).1.packages b.tourPackageId.hexOf =
      (findPackage db.packages b.tourPackageId.hexOf).map
        (fun p => { p with currentParticipants := p.currentParticipants - b.numberOfPeople }) :=
  (cancel_effect db bid b hfind hmem).2.1

/-- Witness for `C5_release_exact_decrement` on `dbC5`, where the decrement
crosses zero. -/
theorem C5_release_exact_decrement_witness :
    findBooking dbC5.bookings 0 = some bC5 ∧
    BookingStatus.cancelled ∈ validTransitions bC5.status ∧
    findPackage (update_booking_status dbC5 0 .cancelled).1.packages
        bC5.tourPackageId.hexOf =
      (findPackage dbC5.packages bC5.tourPackageId.hexOf).map
        (fun p => { p with
            currentParticipants := p.currentParticipants - bC5.numberOfPeople }) :=
  ⟨by decide, by decide,
    C5_release_exact_decrement dbC5 0 bC5 (by decide) (by decide)⟩

/-! ### C6 -/

/-- An empty ten-slot package for booking-reference experiments. -/
def dbC6 : DB :=
  { packages := [{ pid := hexPkg, price := 10, maxParticipants := 10,
                   currentParticipants := 0, status := .active, averageRating := 0,
                   totalRatings := 0, ratingCount := none }]
    bookings := [], ratings := [], nextBookingId := 0 }

/-- A one-person request against `dbC6`. -/
def reqC6 : BookingCreate := { tourPackageId := hexPkg, numberOfPeople := 1 }

/-- Claim C6 (counterexample): `create_booking` never checks the generated
reference for prior existence — two successful creations whose random draws
coincide both succeed and store the same `booking_reference` on two distinct
bookings, so stored references are not guaranteed unique. -/
theorem C6_counterexample :
    (create_booking dbC6 reqC6 hexTourist picks0).2 =
      .ok { bid := 0, tourPackageId := .oid hexPkg, touristId := .oid hexTourist,
            numberOfPeople := 1, totalPrice := 10, status := .pending,
            bookingReference := "AAAAAAAA" } ∧
    (create_booking (create_booking dbC6 reqC6 hexTourist picks0).1
        reqC6 hexTourist2 picks0).2 =
      .ok { bid := 1, tourPackageId := .oid hexPkg, touristId := .oid hexTourist2,
            numberOfPeople := 1, totalPrice := 10, status := .pending,
            bookingReference := "AAAAAAAA" } ∧
    (create_booking (create_booking dbC6 reqC6 hexTourist picks0).1
        reqC6 hexTourist2 picks0).1.bookings.map
      (fun b => (b.bid, b.bookingReference)) = [(0, "AAAAAAAA"), (1, "AAAAAAAA")] ∧
    ¬ ((create_booking (create_booking dbC6 reqC6 hexTourist picks0).1
        reqC6 hexTourist2 picks0).1.bookings.map (·.bookingReference)).Nodup := by
  refine ⟨by decide, by decide, by decide, by decide⟩

theorem refAlphabet_getD_mem :
    ∀ i : Fin 36, refAlphabet.data.getD i.val 'A' ∈ refAlphabet.data := by decide

/-- Claim C6 (amended): a generated booking reference consists of exactly 8
characters drawn from the uppercase-letters-plus-digits alphabet, and a
successful creation stores exactly that reference — but no prior-existence
check is performed, so stored references need not be unique
(`C6_counterexample`). -/
theorem C6_reference_format (picks : List (Fin 36)) (h : picks.length = 8)
    (db : DB) (req : BookingCreate) (tid : String) :
    (genBookingReference picks).length = 8 ∧
    (∀ c ∈ (genBookingReference picks).data, c ∈ refAlphabet.data) ∧
    (∀ db' doc, create_booking db req tid picks = (db', .ok doc) →
       doc.bookingReference = genBookingReference picks) := by
  refine ⟨?_, ?_, ?_⟩
  · show (picks.map (fun i => refAlphabet.data.getD i.val 'A')).length = 8
    rw [List.length_map]
    exact h
  · intro c hc
    obtain ⟨i, _, rfl⟩ := List.mem_map.mp hc
    exact refAlphabet_getD_mem i
  · intro db' doc hok
    rw [create_booking_eq_check_commit] at hok
    cases hchk : create_booking_check db req tid with
    | error e =>
        rw [hchk] at hok
        exact Except.noConfusion (congrArg Prod.snd hok)
    | ok pkg =>
        rw [hchk] at hok
        have hsnd : Except.ok (create_booking_commit db req tid pkg picks).2 =
            Except.ok (ε := BookingError) doc := congrArg Prod.snd hok
        have hdoc : (create_booking_commit db req tid pkg picks).2 = doc := by
          injection hsnd
        rw [← hdoc]
        rfl

/-- Witness for `C6_reference_format` with the concrete draw `picks0`. -/
theorem C6_reference_format_witness :
    picks0.length = 8 ∧
    ((genBookingReference picks0).length = 8 ∧
     (∀ c ∈ (genBookingReference picks0).data, c ∈ refAlphabet.data) ∧
     (∀ db' doc, create_booking dbC6 reqC6 hexTourist picks0 = (db', .ok doc) →
        doc.bookingReference = genBookingReference picks0)) :=
  ⟨by decide, C6_reference_format picks0 (by decide) dbC6 reqC6 hexTourist⟩

/-! ### C7 -/

theorem update_booking_status_not_found (db : DB) (bid : Nat) (st : BookingStatus)
    (hfind : findBooking db.bookings bid = none) :
    update_booking_status db bid st = (db, .error .notFound) := by
  unfold update_booking_status
  rw [hfind]

/-- What a successful check phase of `create_booking` guarantees: the package
was found, is active, and has room. -/
theorem create_booking_check_ok (db : DB) (req : BookingCreate) (tid : String)
    (pkg : PackageDoc) (h : create_booking_check db req tid = .ok pkg) :
    findPackage db.packages req.tourPackageId = some pkg ∧
    pkg.status = .active ∧
    ¬ req.numberOfPeople > pkg.maxParticipants - pkg.currentParticipants ∧
    (isValidObjectId tid && isValidObjectId req.tourPackageId) = true := by
  unfold create_booking_check at h
  by_cases hv : (isValidObjectId tid && isValidObjectId req.tourPackageId) = true
  swap
  · rw [if_pos hv] at h
    exact Except.noConfusion h
  rw [if_neg (not_not_intro hv)] at h
  cases hfind : findPackage db.packages req.tourPackageId with
  | none =>
      rw [hfind] at h
      exact Except.noConfusion h
  | some q =>
      rw [hfind] at h
      dsimp only at h
      by_cases hs : q.status = PackageStatus.active
      swap
      · rw [if_pos hs] at h
        exact Except.noConfusion h
      rw [if_neg (not_not_intro hs)] at h
      by_cases hcap : req.numberOfPeople > q.maxParticipants - q.currentParticipants
      · rw [if_pos hcap] at h
        exact Except.noConfusion h
      · rw [if_neg hcap] at h
        have hq : q = pkg := by injection h
        subst hq
        exact ⟨rfl, hs, hcap, hv⟩

/-- Claim C7 (confirmed): a successful creation stores
`total_price = price-at-creation × number_of_people` and appends the booking;
a successful status transition never changes any booking's stored
`total_price`; and a package update (which may edit the price) never touches
the bookings collection at all. -/
theorem C7_total_price_frozen (db : DB) (req : BookingCreate) (tid : String)
    (picks : List (Fin 36)) (p : PackageDoc)
    (hp : findPackage db.packages req.tourPackageId = some p) :
    (∀ db' doc, create_booking db req tid picks = (db', .ok doc) →
        doc.totalPrice = p.price * (req.numberOfPeople : ℚ) ∧
        db'.bookings = db.bookings ++ [doc]) ∧
    (∀ bid st db' doc, update_booking_status db bid st = (db', .ok doc) →
        db'.bookings.map (·.totalPrice) = db.bookings.map (·.totalPrice)) ∧
    (∀ pid u db' pdoc, update_tour_package db pid u = (db', .ok pdoc) →
        db'.bookings = db.bookings) := by
  refine ⟨?_, ?_, ?_⟩
  · intro db' doc hok
    rw [create_booking_eq_check_commit] at hok
    cases hchk : create_booking_check db req tid with
    | error e =>
        rw [hchk] at hok
        exact Except.noConfusion (congrArg Prod.snd hok)
    | ok pkg =>
        rw [hchk] at hok
        obtain ⟨hfind, _, _, _⟩ := create_booking_check_ok db req tid pkg hchk
        have hpkg : pkg = p := by
          rw [hfind] at hp
          injection hp
        subst hpkg
        have hsnd : Except.ok (create_booking_commit db req tid pkg picks).2 =
            Except.ok (ε := BookingError) doc := congrArg Prod.snd hok
        have hdoc : (create_booking_commit db req tid pkg picks).2 = doc := by
          injection hsnd
        have hfst : (create_booking_commit db req tid pkg picks).1 = db' :=
          congrArg Prod.fst hok
        refine ⟨by rw [← hdoc]; rfl, ?_⟩
        rw [← hfst, ← hdoc]
        rfl
  · intro bid st db' doc hupd
    cases hfind : findBooking db.bookings bid with
    | none =>
        rw [update_booking_status_not_found db bid st hfind] at hupd
        exact Except.noConfusion (congrArg Prod.snd hupd)
    | some b =>
        by_cases hmem : st ∈ validTransitions b.status
        swap
        · rw [update_booking_status_not_allowed db bid st b hfind hmem] at hupd
          exact Except.noConfusion (congrArg Prod.snd hupd)
        rw [update_booking_status_allowed db bid st b hfind hmem] at hupd
        have hfst := congrArg Prod.fst hupd
        simp only at hfst
        have hbk : db'.bookings =
            updateFirstBooking db.bookings bid (fun x => { x with status := st }) := by
          rw [← hfst]
          by_cases hc : st = BookingStatus.cancelled
          · rw [if_pos hc]
          · rw [if_neg hc]
        rw [hbk]
        exact map_updateFirstBooking db.bookings bid _ (fun b => b.totalPrice)
          (fun b => rfl)
  · intro pid u db' pdoc hupd
    unfold update_tour_package at hupd
    by_cases he : u.isEmpty = true
    · rw [if_pos he] at hupd
      exact Except.noConfusion (congrArg Prod.snd hupd)
    rw [if_neg he] at hupd
    by_cases hv : isValidObjectId pid = true
    swap
    · rw [if_pos hv] at hupd
      exact Except.noConfusion (congrArg Prod.snd hupd)
    rw [if_neg (not_not_intro hv)] at hupd
    cases hfind : findPackage db.packages pid with
    | none =>
        rw [hfind] at hupd
        exact Except.noConfusion (congrArg Prod.snd hupd)
    | some q =>
        rw [hfind] at hupd
        dsimp only at hupd
        by_cases hsame : applyPackageUpdate q u = q
        · rw [if_pos hsame] at hupd
          exact Except.noConfusion (congrArg Prod.snd hupd)
        · rw [if_neg hsame] at hupd
          have hfst := congrArg Prod.fst hupd
          simp only at hfst
          rw [← hfst]

/-- The §8 scenario package: price 100, ten slots, none taken. -/
def dbC7w : DB :=
  { packages := [{ pid := hexPkg, price := 100, maxParticipants := 10,
                   currentParticipants := 0, status := .active, averageRating := 0,
                   totalRatings := 0, ratingCount := none }]
    bookings := [], ratings := [], nextBookingId := 0 }

/-- The §8 scenario request: four people. -/
def reqC7 : BookingCreate := { tourPackageId := hexPkg, numberOfPeople := 4 }

/-- The package stored in `dbC7w`. -/
def pC7 : PackageDoc :=
  { pid := hexPkg, price := 100, maxParticipants := 10, currentParticipants := 0,
    status := .active, averageRating := 0, totalRatings := 0, ratingCount := none }

/-- Witness for `C7_total_price_frozen` on the §8 scenario. -/
theorem C7_total_price_frozen_witness :
    findPackage dbC7w.packages reqC7.tourPackageId = some pC7 ∧
    ((∀ db' doc, create_booking dbC7w reqC7 hexTourist picks0 = (db', .ok doc) →
        doc.totalPrice = pC7.price * (reqC7.numberOfPeople : ℚ) ∧
        db'.bookings = dbC7w.bookings ++ [doc]) ∧
     (∀ bid st db' doc, update_booking_status dbC7w bid st = (db', .ok doc) →
        db'.bookings.map (·.totalPrice) = dbC7w.bookings.map (·.totalPrice)) ∧
     (∀ pid u db' pdoc, update_tour_package dbC7w pid u = (db', .ok pdoc) →
        db'.bookings = dbC7w.bookings)) :=
  ⟨by decide, C7_total_price_frozen dbC7w reqC7 hexTourist picks0 pC7 (by decide)⟩

/-! ### C8 -/

/-- What a successful `create_rating` guarantees about its own flow: the
inserted document carries the request's package id, and the returned state is
the aggregate recomputation applied to the state with the rating appended. -/
theorem create_rating_ok (db : DB) (req : RatingCreate) (db' : DB) (doc : RatingDoc)
    (h : create_rating db req = (db', .ok doc)) :
    doc.tourPackageId = req.tourPackageId ∧
    db' = update_package_rating { db with ratings := db.ratings ++ [doc] }
      req.tourPackageId ∧
    isValidObjectId req.tourPackageId = true := by
  unfold create_rating at h
  by_cases hv : isValidObjectId req.tourPackageId = true
  swap
  · rw [if_pos hv] at h
    exact Except.noConfusion (congrArg Prod.snd h)
  rw [if_neg (not_not_intro hv)] at h
  cases hfb : db.bookings.find? (bookingMatchesRatingQuery req) with
  | none =>
      rw [hfb] at h
      exact Except.noConfusion (congrArg Prod.snd h)
  | some booking =>
      rw [hfb] at h
      dsimp only at h
      by_cases hdup : (db.ratings.find? (fun r =>
          r.tourPackageId = req.tourPackageId && r.touristId = req.touristId)).isSome = true
      · rw [if_pos hdup] at h
        exact Except.noConfusion (congrArg Prod.snd h)
      rw [if_neg hdup] at h
      by_cases hval : (1 ≤ req.rating ∧ req.rating ≤ 5)
      swap
      · rw [if_pos hval] at h
        exact Except.noConfusion (congrArg Prod.snd h)
      rw [if_neg (not_not_intro hval)] at h
      have hsnd := congrArg Prod.snd h
      dsimp only at hsnd
      injection hsnd with hdoc
      have hfst := congrArg Prod.fst h
      simp only at hfst
      refine ⟨by rw [← hdoc], ?_, hv⟩
      rw [← hfst, hdoc]

/-- The recomputation step when the package has at least one rating. -/
theorem update_package_rating_nonempty (db : DB) (packageId : String)
    (hv : isValidObjectId packageId = true)
    (hne : (ratingsForPackage db.ratings packageId).isEmpty = false) :
    update_package_rating db packageId =
      { db with
          packages :=
            updateFirstPackage db.packages packageId (fun p =>
              { p with
                  averageRating := roundTenths
                    (((ratingsForPackage db.ratings packageId).map
                        (fun r => (r.rating : ℚ))).sum /
                      ((ratingsForPackage db.ratings packageId).length : ℚ)),
                  ratingCount :=
                    some (ratingsForPackage db.ratings packageId).length }) } := by
  unfold update_package_rating
  rw [if_neg (not_not_intro hv)]
  dsimp only
  rw [if_neg (by rw [hne]; exact Bool.false_ne_true)]

/-- Claim C8 (amended): after every successful rating insertion the package
record's `average_rating` equals the arithmetic mean of the package's stored
ratings *rounded to one decimal place (ties to even)*, and the rating count
is written to the document field `rating_count`; the pydantic model's
`total_ratings` field is left untouched on every package. -/
theorem C8_rating_aggregate (db : DB) (req : RatingCreate) (db' : DB) (doc : RatingDoc)
    (h : create_rating db req = (db', .ok doc)) :
    db'.ratings = db.ratings ++ [doc] ∧
    ratingsForPackage db'.ratings req.tourPackageId ≠ [] ∧
    findPackage db'.packages req.tourPackageId =
      (findPackage db.packages req.tourPackageId).map (fun p =>
        { p with
            averageRating := roundTenths
              (((ratingsForPackage db'.ratings req.tourPackageId).map
                  (fun r => (r.rating : ℚ))).sum /
                ((ratingsForPackage db'.ratings req.tourPackageId).length : ℚ))
            ratingCount := some (ratingsForPackage db'.ratings req.tourPackageId).length }) ∧
    db'.packages.map (fun p => (p.pid, p.totalRatings)) =
      db.packages.map (fun p => (p.pid, p.totalRatings)) := by
  obtain ⟨hpk, hdb', hv⟩ := create_rating_ok db req db' doc h
  have hmem : doc ∈ ratingsForPackage (db.ratings ++ [doc]) req.tourPackageId := by
    unfold ratingsForPackage
    refine List.mem_filter.mpr ⟨List.mem_append_right _ (List.mem_singleton.mpr rfl), ?_⟩
    simp [hpk]
  have hne : (ratingsForPackage (db.ratings ++ [doc]) req.tourPackageId).isEmpty = false := by
    cases hm : ratingsForPackage (db.ratings ++ [doc]) req.tourPackageId with
    | nil =>
        rw [hm] at hmem
        exact absurd hmem (List.not_mem_nil doc)
    | cons a l => rfl
  rw [update_package_rating_nonempty _ _ hv hne] at hdb'
  subst hdb'
  refine ⟨rfl, fun hcon => ?_, ?_, ?_⟩
  · rw [show ratingsForPackage (db.ratings ++ [doc]) req.tourPackageId = [] from hcon] at hmem
    exact absurd hmem (List.not_mem_nil doc)
  · exact findPackage_updateFirstPackage_self db.packages req.tourPackageId _ (fun p => rfl)
  · exact map_updateFirstPackage db.packages req.tourPackageId _
      (fun p => (p.pid, p.totalRatings)) (fun p => rfl)

/-- A completed booking whose `tourist_id` is stored as a plain string, so a
rating request by "t1" passes the eligibility query. -/
def bC8 : BookingDoc :=
  { bid := 0, tourPackageId := .oid hexPkg, touristId := .str "t1",
    numberOfPeople := 2, totalPrice := 200, status := .completed,
    bookingReference := "EEEEEEEE" }

/-- A database with two existing 1-star ratings for the package and an
eligible tourist "t1" about to add a 2-star one. -/
def dbC8 : DB :=
  { packages := [{ pid := hexPkg, price := 100, maxParticipants := 5,
                   currentParticipants := 2, status := .active, averageRating := 0,
                   totalRatings := 0, ratingCount := none }]
    bookings := [bC8]
    ratings := [{ tourPackageId := hexPkg, touristId := "x", rating := 1, bookingId := none },
                { tourPackageId := hexPkg, touristId := "y", rating := 1, bookingId := none }]
    nextBookingId := 1 }

/-- The rating request by "t1". -/
def reqC8 : RatingCreate :=
  { tourPackageId := hexPkg, touristId := "t1", rating := 2, bookingId := none }

/-- The rating document `create_rating` inserts for `reqC8`. -/
def docC8 : RatingDoc :=
  { tourPackageId := hexPkg, touristId := "t1", rating := 2, bookingId := some 0 }

/-- Claim C8 (counterexample): after the successful insertion the three stored
ratings 1, 1, 2 have arithmetic mean 4/3, but the package record's
`average_rating` is `round(4/3, 1) = 13/10 ≠ 4/3`; moreover the count 3 is
written to the `rating_count` document field while the model's
`total_ratings` field stays 0 — so neither claimed equality holds. -/
theorem C8_counterexample :
    (create_rating dbC8 reqC8).2 = .ok docC8 ∧
    ((ratingsForPackage (create_rating dbC8 reqC8).1.ratings hexPkg).map
        (fun r => (r.rating : ℚ))).sum /
      ((ratingsForPackage (create_rating dbC8 reqC8).1.ratings hexPkg).length : ℚ) =
      4/3 ∧
    (create_rating dbC8 reqC8).1.packages.map (·.averageRating) = [13/10] ∧
    (13/10 : ℚ) ≠ 4/3 ∧
    (create_rating dbC8 reqC8).1.packages.map (·.totalRatings) = [0] ∧
    (create_rating dbC8 reqC8).1.packages.map (·.ratingCount) = [some 3] := by
  refine ⟨by decide, by decide, by decide, by decide, by decide, by decide⟩

/-- The state `create_rating dbC8 reqC8` produces. -/
def dbC8' : DB :=
  { packages := [{ pid := hexPkg, price := 100, maxParticipants := 5,
                   currentParticipants := 2, status := .active, averageRating := 13/10,
                   totalRatings := 0, ratingCount := some 3 }]
    bookings := [bC8]
    ratings := [{ tourPackageId := hexPkg, touristId := "x", rating := 1, bookingId := none },
                { tourPackageId := hexPkg, touristId := "y", rating := 1, bookingId := none },
                docC8]
    nextBookingId := 1 }

/-- Witness for `C8_rating_aggregate` on `dbC8`. -/
theorem C8_rating_aggregate_witness :
    create_rating dbC8 reqC8 = (dbC8', .ok docC8) ∧
    (dbC8'.ratings = dbC8.ratings ++ [docC8] ∧
     ratingsForPackage dbC8'.ratings reqC8.tourPackageId ≠ [] ∧
     findPackage dbC8'.packages reqC8.tourPackageId =
       (findPackage dbC8.packages reqC8.tourPackageId).map (fun p =>
         { p with
             averageRating := roundTenths
               (((ratingsForPackage dbC8'.ratings reqC8.tourPackageId).map
                   (fun r => (r.rating : ℚ))).sum /
                 ((ratingsForPackage dbC8'.ratings reqC8.tourPackageId).length : ℚ))
             ratingCount :=
               some (ratingsForPackage dbC8'.ratings reqC8.tourPackageId).length }) ∧
     dbC8'.packages.map (fun p => (p.pid, p.totalRatings)) =
       dbC8.packages.map (fun p => (p.pid, p.totalRatings))) :=
  ⟨by decide, C8_rating_aggregate dbC8 reqC8 dbC8' docC8 (by decide)⟩

/-! ### C9 -/

/-- Claim C9 (confirmed): with a valid package id and no explicit booking
filter, `create_rating` fails with the not-eligible error whenever no
completed booking matching the (package, tourist) pair exists (the
eligibility check runs first); when an eligible completed booking does
exist, it fails with the duplicate-rating error whenever a rating by the
same tourist for the same package is already stored.  In both failure cases
the returned state is exactly the input state: no rating is inserted and no
package aggregate changes. -/
theorem C9_rating_errors (db : DB) (req : RatingCreate)
    (hv : isValidObjectId req.tourPackageId = true)
    (hb : req.bookingId = none) :
    ((∀ b ∈ db.bookings, ¬ (b.tourPackageId = BsonId.oid req.tourPackageId ∧
        b.touristId = BsonId.str req.touristId ∧ b.status = BookingStatus.completed)) →
      create_rating db req = (db, .error .notEligible)) ∧
    ((∃ b ∈ db.bookings, b.tourPackageId = BsonId.oid req.tourPackageId ∧
        b.touristId = BsonId.str req.touristId ∧ b.status = BookingStatus.completed) →
     (∃ r ∈ db.ratings, r.tourPackageId = req.tourPackageId ∧
        r.touristId = req.touristId) →
      create_rating db req = (db, .error .duplicateRating)) := by
  have hquery : ∀ b : BookingDoc, bookingMatchesRatingQuery req b = true ↔
      (b.tourPackageId = BsonId.oid req.tourPackageId ∧
        b.touristId = BsonId.str req.touristId ∧ b.status = BookingStatus.completed) := by
    intro b
    unfold bookingMatchesRatingQuery
    rw [hb]
    simp [and_assoc]
  constructor
  · intro hnone
    have hfb : db.bookings.find? (bookingMatchesRatingQuery req) = none := by
      rw [List.find?_eq_none]
      intro b hbm hcon
      exact hnone b hbm ((hquery b).mp hcon)
    unfold create_rating
    rw [if_neg (not_not_intro hv), hfb]
  · intro hsome hdup
    have hfb : (db.bookings.find? (bookingMatchesRatingQuery req)).isSome = true := by
      rw [List.find?_isSome]
      obtain ⟨b, hbm, hprops⟩ := hsome
      exact ⟨b, hbm, (hquery b).mpr hprops⟩
    obtain ⟨booking, hfbs⟩ := Option.isSome_iff_exists.mp hfb
    have hrd : (db.ratings.find? (fun r =>
        r.tourPackageId = req.tourPackageId && r.touristId = req.touristId)).isSome = true := by
      rw [List.find?_isSome]
      obtain ⟨r, hrm, hr1, hr2⟩ := hdup
      exact ⟨r, hrm, by simp [hr1, hr2]⟩
    unfold create_rating
    rw [if_neg (not_not_intro hv), hfbs]
    dsimp only
    rw [if_pos hrd]

/-- A database for the C9 witness: one completed string-keyed booking, one
existing rating by the same tourist. -/
def dbC9w : DB :=
  { packages := [{ pid := hexPkg, price := 100, maxParticipants := 5,
                   currentParticipants := 0, status := .active, averageRating := 0,
                   totalRatings := 0, ratingCount := none }]
    bookings := [{ bid := 0, tourPackageId := .oid hexPkg, touristId := .str "t1",
                   numberOfPeople := 1, totalPrice := 100, status := .completed,
                   bookingReference := "FFFFFFFF" }]
    ratings := [{ tourPackageId := hexPkg, touristId := "t1", rating := 4,
                  bookingId := some 0 }]
    nextBookingId := 1 }

/-- A second rating attempt by the same tourist against `dbC9w`. -/
def reqC9 : RatingCreate :=
  { tourPackageId := hexPkg, touristId := "t1", rating := 5, bookingId := none }

/-- Witness for `C9_rating_errors`: the duplicate attempt on `dbC9w` is
rejected with the duplicate-rating error and the state is unchanged. -/
theorem C9_rating_errors_witness :
    isValidObjectId reqC9.tourPackageId = true ∧
    reqC9.bookingId = none ∧
    (((∀ b ∈ dbC9w.bookings, ¬ (b.tourPackageId = BsonId.oid reqC9.tourPackageId ∧
        b.touristId = BsonId.str reqC9.touristId ∧ b.status = BookingStatus.completed)) →
      create_rating dbC9w reqC9 = (dbC9w, .error .notEligible)) ∧
    ((∃ b ∈ dbC9w.bookings, b.tourPackageId = BsonId.oid reqC9.tourPackageId ∧
        b.touristId = BsonId.str reqC9.touristId ∧ b.status = BookingStatus.completed) →
     (∃ r ∈ dbC9w.ratings, r.tourPackageId = reqC9.tourPackageId ∧
        r.touristId = reqC9.touristId) →
      create_rating dbC9w reqC9 = (dbC9w, .error .duplicateRating))) :=
  ⟨by decide, by decide, C9_rating_errors dbC9w reqC9 (by decide) (by decide)⟩

/-! ### C10 -/

/-- Every booking in the database references its tourist by `ObjectId` (as
`create_booking` always stores, and as seeded production data does). -/
def oidTourists (db : DB) : Prop :=
  ∀ b ∈ db.bookings, b.touristId.isOid = true

instance (db : DB) : Decidable (oidTourists db) := by
  unfold oidTourists
  infer_instance

/-- The rating eligibility query can never match a booking whose `tourist_id`
is an `ObjectId`: the query compares it against a BSON string. -/
theorem query_false_of_oid (r : RatingCreate) (b : BookingDoc)
    (h : b.touristId.isOid = true) : bookingMatchesRatingQuery r b = false := by
  unfold bookingMatchesRatingQuery
  cases hb : b.touristId with
  | oid s => simp [hb]
  | str s =>
      rw [hb] at h
      simp [BsonId.isOid] at h

theorem oidTourists_applyBookingOp (db : DB) (op : BookingOp) (h : oidTourists db) :
    oidTourists (applyBookingOp db op) := by
  cases op with
  | create req tid picks =>
      show oidTourists (create_booking db req tid picks).1
      rw [create_booking_eq_check_commit]
      cases hchk : create_booking_check db req tid with
      | error e => exact h
      | ok pkg =>
          intro b hb
          rcases List.mem_append.mp hb with hb | hb
          · exact h b hb
          · simp only [List.mem_singleton] at hb
            subst hb
            rfl
  | setStatus bid st =>
      show oidTourists (update_booking_status db bid st).1
      cases hfind : findBooking db.bookings bid with
      | none =>
          rw [update_booking_status_not_found db bid st hfind]
          exact h
      | some b =>
          by_cases hmem : st ∈ validTransitions b.status
          swap
          · rw [update_booking_status_not_allowed db bid st b hfind hmem]
            exact h
          rw [update_booking_status_allowed db bid st b hfind hmem]
          intro q hq
          have hq' : q ∈ updateFirstBooking db.bookings bid
              (fun x => { x with status := st }) := by
            by_cases hc : st = BookingStatus.cancelled
            · rw [if_pos hc] at hq
              exact hq
            · rw [if_neg hc] at hq
              exact hq
          rcases mem_updateFirstBooking _ _ _ q hq' with hq2 | ⟨x, hx, rfl⟩
          · exact h q hq2
          · exact h x hx

theorem oidTourists_runBookingOps (db : DB) (ops : List BookingOp)
    (h : oidTourists db) : oidTourists (runBookingOps db ops) := by
  induction ops generalizing db with
  | nil => exact h
  | cons op rest ih =>
      have h1 := oidTourists_applyBookingOp db op h
      have h2 := ih (applyBookingOp db op) h1
      simpa [runBookingOps, List.foldl] using h2

/-- Claim C10 (confirmed): `create_booking` stores the booking's `tourist_id`
as an `ObjectId` of the caller's id string, while `create_rating`'s
eligibility query compares stored `tourist_id`s against the request's plain
string; a BSON string never equals an `ObjectId`, so a rating request whose
`tourist_id` is the very string the booking was created with — even after
the booking has been completed by any further sequence of booking
operations — matches no booking and is rejected as not eligible, the
database unchanged. -/
theorem C10_oid_string_mismatch (db : DB) (req : BookingCreate) (tid : String)
    (picks : List (Fin 36)) (db1 : DB) (doc : BookingDoc)
    (h0 : oidTourists db)
    (hcreate : create_booking db req tid picks = (db1, .ok doc))
    (ops : List BookingOp) (rreq : RatingCreate)
    (hpkg : rreq.tourPackageId = req.tourPackageId)
    (htour : rreq.touristId = tid) :
    doc.touristId = .oid tid ∧
    create_rating (runBookingOps db1 ops) rreq =
      (runBookingOps db1 ops, .error .notEligible) := by
  rw [create_booking_eq_check_commit] at hcreate
  cases hchk : create_booking_check db req tid with
  | error e =>
      rw [hchk] at hcreate
      exact absurd (congrArg Prod.snd hcreate) (fun hc => Except.noConfusion hc)
  | ok pkg =>
      rw [hchk] at hcreate
      obtain ⟨_, _, _, hvboth⟩ := create_booking_check_ok db req tid pkg hchk
      have hvpkg : isValidObjectId req.tourPackageId = true :=
        (Bool.and_eq_true_iff.mp hvboth).2
      have hsnd := congrArg Prod.snd hcreate
      dsimp only at hsnd
      injection hsnd with hdoc
      have hfst := congrArg Prod.fst hcreate
      dsimp only at hfst
      have hdb1 : oidTourists db1 := by
        rw [← hfst]
        intro b hb
        rcases List.mem_append.mp hb with hb | hb
        · exact h0 b hb
        · simp only [List.mem_singleton] at hb
          subst hb
          rfl
      have hrun : oidTourists (runBookingOps db1 ops) :=
        oidTourists_runBookingOps db1 ops hdb1
      refine ⟨by rw [← hdoc]; rfl, ?_⟩
      have hfb : (runBookingOps db1 ops).bookings.find?
          (bookingMatchesRatingQuery rreq) = none := by
        rw [List.find?_eq_none]
        intro b hbm hcon
        rw [query_false_of_oid rreq b (hrun b hbm)] at hcon
        exact Bool.noConfusion hcon
      unfold create_rating
      rw [if_neg (not_not_intro (by rw [hpkg]; exact hvpkg)), hfb]

/-- An empty package catalog entry for the C10 witness. -/
def dbC10 : DB :=
  { packages := [{ pid := hexPkg, price := 100, maxParticipants := 5,
                   currentParticipants := 0, status := .active, averageRating := 0,
                   totalRatings := 0, ratingCount := none }]
    bookings := [], ratings := [], nextBookingId := 0 }

/-- The one-person booking request of the C10 witness. -/
def reqC10 : BookingCreate := { tourPackageId := hexPkg, numberOfPeople := 1 }

/-- The booking `create_booking` stores for `reqC10`: note the
`ObjectId`-typed `tourist_id`. -/
def docC10 : BookingDoc :=
  { bid := 0, tourPackageId := .oid hexPkg, touristId := .oid hexTourist,
    numberOfPeople := 1, totalPrice := 100, status := .pending,
    bookingReference := "AAAAAAAA" }

/-- The database state right after the C10 witness booking is created. -/
def dbC10b : DB :=
  { packages := [{ pid := hexPkg, price := 100, maxParticipants := 5,
                   currentParticipants := 1, status := .active, averageRating := 0,
                   totalRatings := 0, ratingCount := none }]
    bookings := [docC10], ratings := [], nextBookingId := 1 }

/-- Confirm then complete the C10 witness booking. -/
def opsC10 : List BookingOp := [.setStatus 0 .confirmed, .setStatus 0 .completed]

/-- The rating request using the string form of the booking's tourist id. -/
def rreqC10 : RatingCreate :=
  { tourPackageId := hexPkg, touristId := hexTourist, rating := 5, bookingId := none }

/-- Witness for `C10_oid_string_mismatch`: create a booking, confirm and
complete it, then watch the tourist's own rating request bounce. -/
theorem C10_oid_string_mismatch_witness :
    oidTourists dbC10 ∧
    create_booking dbC10 reqC10 hexTourist picks0 = (dbC10b, .ok docC10) ∧
    rreqC10.tourPackageId = reqC10.tourPackageId ∧
    rreqC10.touristId = hexTourist ∧
    (docC10.touristId = .oid hexTourist ∧
     create_rating (runBookingOps dbC10b opsC10) rreqC10 =
       (runBookingOps dbC10b opsC10, .error .notEligible)) :=
  ⟨by decide, by decide, by decide, by decide,
    C10_oid_string_mismatch dbC10 reqC10 hexTourist picks0 dbC10b docC10
      (by decide) (by decide) opsC10 rreqC10 (by decide) (by decide)⟩

end TouristApp
